import Mathlib

/-!
Shallow embedding of the Stratosphere engine's runtime asset layer:

* the `.smodel` binary-container validator (`LoadSModelFile`,
  `src/unnamed/part_001` = `SModelLoader.cpp`),
* the generational-handle resource registries, dependency tracking and
  explicit garbage collection of `AssetManager`
  (`src/Engine/src/TextureAsset.cpp`, second translation unit), and
* the deferred upload transaction used for model textures
  (`TextureAsset::uploadEncodedImage_Deferred`, `src/unnamed/part_000`).

Machine integers are modelled as `Nat` with explicit `% 2^64` / `% 2^32`
reductions at every arithmetic step the C++ performs on `uint64_t` /
`uint32_t` values.  Animation times and clip durations, which the C++
stores as `float` and only ever compares with `<`, are modelled as `Rat`
(the comparison order on the finite float values the format carries).
Opaque Vulkan objects (images, views, samplers, command pools) are not
modelled as data; their creation is tracked as events and their
success/failure is supplied by an oracle, mirroring the black-box
collaborator contracts of the rendering layer.
-/

namespace Stratosphere

/-- 64-bit wrapping addition: C++ `uint64_t` `a + b`. -/
def u64add (a b : Nat) : Nat := (a + b) % 2 ^ 64

/-- 64-bit wrapping multiplication: C++ `uint64_t` `a * b`. -/
def u64mul (a b : Nat) : Nat := (a * b) % 2 ^ 64

/-- 32-bit wrapping addition: C++ `uint32_t` `a + b` (usual arithmetic on
`unsigned int`). -/
def u32add (a b : Nat) : Nat := (a + b) % 2 ^ 32

/-- `std::numeric_limits<uint32_t>::max()`, the node `parentIndex` root
sentinel. -/
def U32_MAX : Nat := 4294967295

-- ------------------------------------------------------------
-- .smodel record layouts (SModelMeshRecord.h, SModelTextureRecord.h,
-- SModelMaterialRecord.h).  Fixed-size integer fields are Nats; the
-- float AABB / PBR factors are not consulted by any control flow of the
-- loader and are omitted from the embedding.
-- ------------------------------------------------------------

/-- `Engine::smodel::SModelMeshRecord` (80 bytes). -/
structure SModelMeshRecord where
  nameStrOffset : Nat := 0
  vertexStride : Nat := 0
  vertexCount : Nat := 0
  indexCount : Nat := 0
  layoutFlags : Nat := 0
  indexType : Nat := 0
  vertexDataOffset : Nat := 0
  vertexDataSize : Nat := 0
  indexDataOffset : Nat := 0
  indexDataSize : Nat := 0
  deriving DecidableEq, Repr

/-- `Engine::smodel::SModelTextureRecord` (64 bytes). -/
structure SModelTextureRecord where
  nameStrOffset : Nat := 0
  uriStrOffset : Nat := 0
  colorSpace : Nat := 0
  encoding : Nat := 0
  wrapU : Nat := 0
  wrapV : Nat := 0
  minFilter : Nat := 0
  magFilter : Nat := 0
  mipFilter : Nat := 0
  imageDataOffset : Nat := 0
  imageDataSize : Nat := 0
  deriving DecidableEq, Repr

/-- `Engine::smodel::SModelMaterialRecord` (104 bytes); texture indices are
signed (`-1` = none).  The float PBR factors are copied verbatim by the
loader and never branch the load; they are omitted. -/
structure SModelMaterialRecord where
  nameStrOffset : Nat := 0
  alphaMode : Nat := 0
  doubleSided : Nat := 0
  baseColorTexture : Int := -1
  normalTexture : Int := -1
  metallicRoughnessTexture : Int := -1
  occlusionTexture : Int := -1
  emissiveTexture : Int := -1
  baseColorTexCoord : Nat := 0
  normalTexCoord : Nat := 0
  metallicRoughnessTexCoord : Nat := 0
  occlusionTexCoord : Nat := 0
  emissiveTexCoord : Nat := 0
  deriving DecidableEq, Repr

/-- Modelled from the spec: the `SModelPrimitiveRecord` declaration is not
under `src/`; its fields (mesh index, material index, draw range: first
index, index count, vertex offset) are those read by `LoadSModelFile` and
`AssetManager::loadModel` and named in spec §3. -/
structure SModelPrimitiveRecord where
  meshIndex : Nat := 0
  materialIndex : Nat := 0
  firstIndex : Nat := 0
  indexCount : Nat := 0
  vertexOffset : Int := 0
  deriving DecidableEq, Repr

/-- Modelled from the spec: the `SModelNodeRecord` declaration is not under
`src/`; its fields (parent index with `UINT32_MAX` root sentinel,
child-index range, primitive-index range) are those read by the node-graph
validation of `LoadSModelFile` and named in spec §3. -/
structure SModelNodeRecord where
  parentIndex : Nat := U32_MAX
  firstChildIndex : Nat := 0
  childCount : Nat := 0
  firstPrimitiveIndex : Nat := 0
  primitiveCount : Nat := 0
  deriving DecidableEq, Repr

/-- `Engine::smodel::SModelAnimationClipRecord` (16 bytes); `durationSec`
is a float compared only with `< 0.0f`, modelled as `Rat`. -/
structure SModelAnimationClipRecord where
  nameOffset : Nat := 0
  durationSec : Rat := 0
  firstChannel : Nat := 0
  channelCount : Nat := 0
  deriving DecidableEq, Repr

/-- `Engine::smodel::SModelAnimationChannelRecord` (8 bytes). -/
structure SModelAnimationChannelRecord where
  targetNode : Nat := 0
  path : Nat := 0
  samplerIndex : Nat := 0
  deriving DecidableEq, Repr

/-- `Engine::smodel::SModelAnimationSamplerRecord` (20 bytes). -/
structure SModelAnimationSamplerRecord where
  firstTime : Nat := 0
  timeCount : Nat := 0
  firstValue : Nat := 0
  valueCount : Nat := 0
  interpolation : Nat := 0
  valueType : Nat := 0
  deriving DecidableEq, Repr

/-- `Engine::smodel::SModelHeader`, including the V2 node fields and V3
animation fields referenced by `SModelLoader.cpp` (the V1 part is declared
in `SModelMeshRecord.h`; the V2/V3 extension fields follow spec §6). -/
structure SModelHeader where
  magic : Nat := 0
  versionMajor : Nat := 0
  versionMinor : Nat := 0
  fileSizeBytes : Nat := 0
  flags : Nat := 0
  meshCount : Nat := 0
  primitiveCount : Nat := 0
  materialCount : Nat := 0
  textureCount : Nat := 0
  meshesOffset : Nat := 0
  primitivesOffset : Nat := 0
  materialsOffset : Nat := 0
  texturesOffset : Nat := 0
  stringTableOffset : Nat := 0
  blobOffset : Nat := 0
  stringTableSize : Nat := 0
  blobSize : Nat := 0
  nodeCount : Nat := 0
  nodesOffset : Nat := 0
  nodePrimitiveIndexCount : Nat := 0
  nodePrimitiveIndicesOffset : Nat := 0
  nodeChildIndicesCount : Nat := 0
  nodeChildIndicesOffset : Nat := 0
  animClipsCount : Nat := 0
  animClipsOffset : Nat := 0
  animChannelsCount : Nat := 0
  animChannelsOffset : Nat := 0
  animSamplersCount : Nat := 0
  animSamplersOffset : Nat := 0
  animTimesCount : Nat := 0
  animTimesOffset : Nat := 0
  animValuesCount : Nat := 0
  animValuesOffset : Nat := 0
  deriving DecidableEq, Repr

/-- A loaded `.smodel` byte buffer, viewed through its typed tables
(`SModelFileView` after a successful read of the file bytes): the header,
the record tables the view's pointers designate, and the actual byte count
of the buffer (`outView.fileBytes.size()`).  The raw blob/string payload
bytes are abstracted; only their declared extents take part in any
control flow of the loader. -/
structure SModelFile where
  header : SModelHeader := {}
  meshes : List SModelMeshRecord := []
  primitives : List SModelPrimitiveRecord := []
  materials : List SModelMaterialRecord := []
  textures : List SModelTextureRecord := []
  nodes : List SModelNodeRecord := []
  nodePrimitiveIndices : List Nat := []
  nodeChildIndices : List Nat := []
  animClips : List SModelAnimationClipRecord := []
  animChannels : List SModelAnimationChannelRecord := []
  animSamplers : List SModelAnimationSamplerRecord := []
  animTimes : List Rat := []
  animValues : List Rat := []
  fileSize : Nat := 0
  deriving DecidableEq, Repr

-- ------------------------------------------------------------
-- LoadSModelFile helpers (SModelLoader.cpp)
-- ------------------------------------------------------------

/-- `isRangeInsideFile(begin, size, fileSize)`: the sum is `uint64_t`
arithmetic, hence reduced mod `2^64`. -/
def isRangeInsideFile (bg sz fileSize : Nat) : Bool :=
  if fileSize < bg then false
  else if fileSize < sz then false
  else if fileSize < u64add bg sz then false
  else true

/-- `tableRangeValid<T>(tableOffset, count, fileSize)` for an element size
`esize = sizeof(T)`; `bytes = count * sizeof(T)` is `uint64_t`
multiplication. -/
def tableRangeValid (tableOffset count esize fileSize : Nat) : Bool :=
  isRangeInsideFile tableOffset (u64mul count esize) fileSize

/-- Sequencing of `LoadSModelFile`'s early-return checks: the first failing
check's message wins. -/
def andThen (a b : Except String Unit) : Except String Unit :=
  match a with
  | .error e => .error e
  | .ok _ => b

/-- `guardE cond msg` errors with `msg` when `cond` holds (an early-return
`if (cond) { outError = msg; return false; }`). -/
def guardE (cond : Prop) [Decidable cond] (msg : String) : Except String Unit :=
  if cond then .error msg else .ok ()

/-- Runs `f i, f (i+1), ..., f (i+n-1)` in order, stopping at the first
error (a validation `for` loop with early `return false`). -/
def checkRange (f : Nat → Except String Unit) : Nat → Nat → Except String Unit
  | _, 0 => .ok ()
  | i, n + 1 => andThen (f i) (checkRange f (i + 1) n)

theorem andThen_ok_iff (a b : Except String Unit) :
    andThen a b = .ok () ↔ a = .ok () ∧ b = .ok () := by
  cases a with
  | error e => simp [andThen]
  | ok u => cases u; simp [andThen]

theorem checkRange_ok_iff (f : Nat → Except String Unit) (i n : Nat) :
    checkRange f i n = .ok () ↔ ∀ k, k < n → f (i + k) = .ok () := by
  induction n generalizing i with
  | zero => simp [checkRange]
  | succ m ih =>
    simp only [checkRange, andThen_ok_iff, ih]
    constructor
    · rintro ⟨h0, hrest⟩ k hk
      match k, hk with
      | 0, _ => simpa using h0
      | k' + 1, hk =>
        have := hrest k' (by omega)
        simpa [Nat.add_comm, Nat.add_left_comm, Nat.add_assoc] using this
    · intro h
      refine ⟨by simpa using h 0 (Nat.succ_pos m), fun k hk => ?_⟩
      have := h (k + 1) (by omega)
      simpa [Nat.add_comm, Nat.add_left_comm, Nat.add_assoc] using this

-- ------------------------------------------------------------
-- LoadSModelFile (SModelLoader.cpp) — validation phases, in source order.
-- I/O failures (file missing / unreadable) happen before the byte buffer
-- exists and are outside the embedding; `fileSize = 0` models the
-- "File is empty" early return.
-- ------------------------------------------------------------

/-- The `'SMOD'` magic constant `0x444F4D53`. -/
def smodMagic : Nat := 0x444F4D53

/-- Modelled from the spec: `isHeaderCompatible` is declared in
`SModelLoader.h`, which is not under `src/`.  Spec §6: the magic must be
the literal `"SMOD"` and the version one of the supported majors
(1 = base, 2 adds nodes, 3 adds animation). -/
def isHeaderCompatible (h : SModelHeader) : Bool :=
  decide (h.magic = smodMagic) && decide (1 ≤ h.versionMajor) &&
    decide (h.versionMajor ≤ 3)

/-- Empty-file, minimum-size, magic/version and declared-size checks. -/
def headerChecks (f : SModelFile) : Except String Unit :=
  andThen (guardE (f.fileSize = 0) "File is empty")
  (andThen (guardE (f.fileSize < 108) "File too small to contain SModelHeader.")
  (andThen (guardE (isHeaderCompatible f.header = false)
      "SModel header incompatible (bad magic or unsupported version).")
  (guardE (f.header.fileSizeBytes ≠ 0 ∧ f.header.fileSizeBytes ≠ f.fileSize)
      "SModel header fileSizeBytes does not match actual file size.")))

/-- Section/table bounds: string table, blob, the four V1 record tables,
the V2 node tables and the V3 animation tables (the latter only when their
counts are nonzero).  The later `ptrAt` calls re-run exactly the same
`tableRangeValid` checks on the animation tables and are subsumed. -/
def sectionChecks (f : SModelFile) : Except String Unit :=
  let h := f.header
  andThen (guardE (isRangeInsideFile h.stringTableOffset h.stringTableSize f.fileSize = false)
      "String table out of bounds.")
  (andThen (guardE (isRangeInsideFile h.blobOffset h.blobSize f.fileSize = false)
      "Blob section out of bounds.")
  (andThen (guardE (tableRangeValid h.meshesOffset h.meshCount 80 f.fileSize = false)
      "Table out of file bounds: meshes")
  (andThen (guardE (tableRangeValid h.primitivesOffset h.primitiveCount 20 f.fileSize = false)
      "Table out of file bounds: primitives")
  (andThen (guardE (tableRangeValid h.materialsOffset h.materialCount 104 f.fileSize = false)
      "Table out of file bounds: materials")
  (andThen (guardE (tableRangeValid h.texturesOffset h.textureCount 64 f.fileSize = false)
      "Table out of file bounds: textures")
  (andThen (guardE (0 < h.nodeCount ∧
        tableRangeValid h.nodesOffset h.nodeCount 20 f.fileSize = false)
      "Table out of file bounds: nodes")
  (andThen (guardE (0 < h.nodePrimitiveIndexCount ∧
        isRangeInsideFile h.nodePrimitiveIndicesOffset
          (u64mul h.nodePrimitiveIndexCount 4) f.fileSize = false)
      "NodePrimitiveIndices table out of file bounds.")
  (andThen (guardE (0 < h.nodeChildIndicesCount ∧
        isRangeInsideFile h.nodeChildIndicesOffset
          (u64mul h.nodeChildIndicesCount 4) f.fileSize = false)
      "NodeChildIndices table out of file bounds.")
  (andThen (guardE (0 < h.animClipsCount ∧
        tableRangeValid h.animClipsOffset h.animClipsCount 16 f.fileSize = false)
      "Table out of file bounds: animClips")
  (andThen (guardE (0 < h.animChannelsCount ∧
        tableRangeValid h.animChannelsOffset h.animChannelsCount 8 f.fileSize = false)
      "Table out of file bounds: animChannels")
  (andThen (guardE (0 < h.animSamplersCount ∧
        tableRangeValid h.animSamplersOffset h.animSamplersCount 20 f.fileSize = false)
      "Table out of file bounds: animSamplers")
  (andThen (guardE (0 < h.animTimesCount ∧
        tableRangeValid h.animTimesOffset h.animTimesCount 4 f.fileSize = false)
      "Table out of file bounds: animTimes")
  (guardE (0 < h.animValuesCount ∧
        tableRangeValid h.animValuesOffset h.animValuesCount 4 f.fileSize = false)
      "Table out of file bounds: animValues")))))))))))))

/-- Per-mesh blob-slice validation: the `offset + size` sums are
`uint64_t` additions, the `count * stride` product a `uint64_t`
multiplication of two `uint32_t` values. -/
def meshSliceCheck (f : SModelFile) (i : Nat) : Except String Unit :=
  let m := f.meshes.getD i {}
  let blob := f.header.blobSize
  andThen (guardE (blob < u64add m.vertexDataOffset m.vertexDataSize)
      "Mesh vertex data slice out of blob bounds")
  (andThen (guardE (blob < u64add m.indexDataOffset m.indexDataSize)
      "Mesh index data slice out of blob bounds")
  (andThen (guardE (m.vertexCount = 0 ∨ m.vertexStride = 0)
      "Mesh has invalid vertexCount/vertexStride")
  (guardE (m.vertexDataSize ≠ u64mul m.vertexCount m.vertexStride)
      "Mesh vertexDataSize mismatch")))

def meshSliceChecks (f : SModelFile) : Except String Unit :=
  checkRange (meshSliceCheck f) 0 f.header.meshCount

/-- Per-texture encoded-image blob-slice validation (`uint64_t` sum). -/
def textureSliceCheck (f : SModelFile) (i : Nat) : Except String Unit :=
  let t := f.textures.getD i {}
  guardE (f.header.blobSize < u64add t.imageDataOffset t.imageDataSize)
    "Texture image data slice out of blob bounds"

def textureSliceChecks (f : SModelFile) : Except String Unit :=
  checkRange (textureSliceCheck f) 0 f.header.textureCount

/-- Primitive cross-references must be in range. -/
def primitiveCheck (f : SModelFile) (i : Nat) : Except String Unit :=
  let p := f.primitives.getD i {}
  andThen (guardE (f.header.meshCount ≤ p.meshIndex)
      "Primitive references invalid meshIndex")
  (guardE (f.header.materialCount ≤ p.materialIndex)
      "Primitive references invalid materialIndex")

def primitiveChecks (f : SModelFile) : Except String Unit :=
  checkRange (primitiveCheck f) 0 f.header.primitiveCount

/-- `checkTex`: a negative texture index means "none"; a non-negative one
must be below `textureCount`. -/
def materialTexCheck (textureCount : Nat) (texIndex : Int) : Except String Unit :=
  guardE (¬ texIndex < 0 ∧ (textureCount : Int) ≤ texIndex)
    "Material references invalid texture index"

def materialCheck (f : SModelFile) (i : Nat) : Except String Unit :=
  let m := f.materials.getD i {}
  let tc := f.header.textureCount
  andThen (materialTexCheck tc m.baseColorTexture)
  (andThen (materialTexCheck tc m.normalTexture)
  (andThen (materialTexCheck tc m.metallicRoughnessTexture)
  (andThen (materialTexCheck tc m.occlusionTexture)
  (materialTexCheck tc m.emissiveTexture))))

def materialChecks (f : SModelFile) : Except String Unit :=
  checkRange (materialCheck f) 0 f.header.materialCount

/-- Node-graph validation (V2, only when nodes are present).  The
child/primitive range comparisons and index sums are `uint32_t`
arithmetic; `nodeChildIndices` is null exactly when its count is zero. -/
def nodeCheck (f : SModelFile) (ni : Nat) : Except String Unit :=
  let nr := f.nodes.getD ni {}
  let nodeCount := f.header.nodeCount
  let childIdxCount := f.header.nodeChildIndicesCount
  let idxCount := f.header.nodePrimitiveIndexCount
  let primCount := f.header.primitiveCount
  andThen (guardE (nr.parentIndex ≠ U32_MAX ∧ nodeCount ≤ nr.parentIndex)
      "Node parentIndex out of bounds")
  (andThen
    (if 0 < nr.childCount then
      andThen (guardE (childIdxCount = 0)
          "Node has children but nodeChildIndices table is missing")
      (andThen (guardE (nr.firstChildIndex = U32_MAX)
          "Node has children but firstChildIndex == UINT32_MAX")
      (andThen (guardE (childIdxCount < u32add nr.firstChildIndex nr.childCount)
          "Node child index range out of bounds")
      (checkRange (fun k =>
          let c := f.nodeChildIndices.getD (u32add nr.firstChildIndex k) 0
          andThen (guardE (nodeCount ≤ c)
              "Node references invalid child node index")
          (guardE ((f.nodes.getD c {}).parentIndex ≠ ni)
              "Node child parentIndex mismatch")) 0 nr.childCount)))
    else .ok ())
  (if 0 < nr.primitiveCount then
      andThen (guardE (idxCount < u32add nr.firstPrimitiveIndex nr.primitiveCount)
          "Node primitive index range out of bounds")
      (checkRange (fun k =>
          guardE (primCount ≤
              f.nodePrimitiveIndices.getD (u32add nr.firstPrimitiveIndex k) 0)
            "Node references invalid primitive index") 0 nr.primitiveCount)
    else .ok ()))

def nodeChecks (f : SModelFile) : Except String Unit :=
  if 0 < f.header.nodeCount then checkRange (nodeCheck f) 0 f.header.nodeCount
  else .ok ()

/-- Animation pointer null checks: each `ptrAt` result is null exactly when
its count is zero (a range failure already returned earlier), so these
guards never fire; they are kept for fidelity to the source. -/
def animNullChecks (f : SModelFile) : Except String Unit :=
  let h := f.header
  andThen (guardE (0 < h.animClipsCount ∧ h.animClipsCount = 0)
      "animClipsCount > 0 but animClips pointer is null")
  (andThen (guardE (0 < h.animChannelsCount ∧ h.animChannelsCount = 0)
      "animChannelsCount > 0 but animChannels pointer is null")
  (andThen (guardE (0 < h.animSamplersCount ∧ h.animSamplersCount = 0)
      "animSamplersCount > 0 but animSamplers pointer is null")
  (andThen (guardE (0 < h.animTimesCount ∧ h.animTimesCount = 0)
      "animTimesCount > 0 but animTimes pointer is null")
  (guardE (0 < h.animValuesCount ∧ h.animValuesCount = 0)
      "animValuesCount > 0 but animValues pointer is null"))))

def clipCheck (f : SModelFile) (ci : Nat) : Except String Unit :=
  let clip := f.animClips.getD ci {}
  andThen (guardE (clip.durationSec < 0) "Animation clip durationSec < 0")
  (guardE (f.header.animChannelsCount < u32add clip.firstChannel clip.channelCount)
    "Animation clip channel range out of bounds")

def channelCheck (f : SModelFile) (ch : Nat) : Except String Unit :=
  let chan := f.animChannels.getD ch {}
  andThen (guardE (f.header.nodeCount ≤ chan.targetNode)
      "Animation channel targetNode out of bounds")
  (andThen (guardE (f.header.animSamplersCount ≤ chan.samplerIndex)
      "Animation channel samplerIndex out of bounds")
  (guardE (¬ (chan.path = 0 ∨ chan.path = 1 ∨ chan.path = 2))
      "Animation channel path is invalid"))

/-- The non-decreasing-times violation message (the only parse error whose
identity a claim depends on). -/
def timesErrMsg : String := "Animation sampler times are not non-decreasing"

/-- The structural part of per-sampler validation (everything before the
time-monotonicity loop). -/
def samplerStructCheck (f : SModelFile) (si : Nat) : Except String Unit :=
  let s := f.animSamplers.getD si {}
  andThen (guardE (s.timeCount < 1) "Animation sampler timeCount < 1")
  (andThen (guardE (f.header.animTimesCount < u32add s.firstTime s.timeCount)
      "Animation sampler time range out of bounds")
  (andThen (guardE (f.header.animValuesCount < u32add s.firstValue s.valueCount)
      "Animation sampler value range out of bounds")
  (andThen (guardE (¬ (s.interpolation = 0 ∨ s.interpolation = 1 ∨ s.interpolation = 2))
      "Animation sampler interpolation is invalid")
  (andThen (guardE (¬ (s.valueType = 0 ∨ s.valueType = 1))
      "Animation sampler valueType is invalid")
  (guardE (s.valueCount ≠
      (if s.valueType = 0 then u64mul s.timeCount 3 else u64mul s.timeCount 4))
      "Animation sampler valueCount does not match timeCount * valueWidth")))))

/-- The time-monotonicity loop: `for (ti = 1; ti < timeCount; ++ti)` over
`times = animTimes + firstTime`. -/
def samplerTimesCheck (f : SModelFile) (si : Nat) : Except String Unit :=
  let s := f.animSamplers.getD si {}
  checkRange (fun ti =>
      guardE (f.animTimes.getD (s.firstTime + ti) 0 <
          f.animTimes.getD (s.firstTime + (ti - 1)) 0) timesErrMsg)
    1 (s.timeCount - 1)

def samplerCheck (f : SModelFile) (si : Nat) : Except String Unit :=
  andThen (samplerStructCheck f si) (samplerTimesCheck f si)

def animChecks (f : SModelFile) : Except String Unit :=
  andThen (animNullChecks f)
  (andThen (checkRange (clipCheck f) 0 f.header.animClipsCount)
  (andThen (checkRange (channelCheck f) 0 f.header.animChannelsCount)
  (checkRange (samplerCheck f) 0 f.header.animSamplersCount)))

/-- `Engine::smodel::LoadSModelFile`, from the point where the byte buffer
has been read: `.ok ()` means the function returns `true` with a fully
validated view (whose tables are exactly the fields of `f`). -/
def loadSModelFile (f : SModelFile) : Except String Unit :=
  andThen (headerChecks f)
  (andThen (sectionChecks f)
  (andThen (meshSliceChecks f)
  (andThen (textureSliceChecks f)
  (andThen (primitiveChecks f)
  (andThen (materialChecks f)
  (andThen (nodeChecks f) (animChecks f)))))))

-- ------------------------------------------------------------
-- Handles, registry entries and the AssetManager state
-- (AssetManager implementation: second unit of src/Engine/src/TextureAsset.cpp).
-- ------------------------------------------------------------

/-- Modelled from the spec: the handle declarations (`assets/Handles.h`)
are not under `src/`.  Spec §3: a handle is an opaque
{identifier, generation} pair; a default-constructed handle is the invalid
handle.  All four kinds (mesh, texture, material, model) share this shape. -/
structure Handle where
  id : Nat := 0
  generation : Nat := 0
  deriving DecidableEq, Repr

/-- The invalid handle `MeshHandle{}` / `ModelHandle{}` etc. -/
def invalidHandle : Handle := {}

/-- Modelled from the spec: `Handle::isValid()` is declared in the missing
`assets/Handles.h`.  Identifiers are allocated from 1 upward, so the
default identifier 0 marks invalidity. -/
def Handle.isValid (h : Handle) : Bool := decide (h.id ≠ 0)

/-- GPU-facing state of a `TextureAsset` after a recorded upload.  The
Vulkan image/view/sampler objects are opaque; the asset's observable
fields are its dimensions, mip count and format choice. -/
structure TextureAsset where
  width : Nat := 0
  height : Nat := 0
  mipLevels : Nat := 1
  srgb : Bool := false
  deriving DecidableEq, Repr

/-- `MeshData` fields consumed by the mesh upload path (payload bytes are
opaque blob content). -/
structure MeshData where
  vertexCount : Nat := 0
  indexCount : Nat := 0
  vertexStride : Nat := 0
  indexFormat : Nat := 0
  deriving DecidableEq, Repr

/-- A GPU-resident mesh (buffers opaque; observable summary only). -/
structure MeshAsset where
  vertexCount : Nat := 0
  indexCount : Nat := 0
  deriving DecidableEq, Repr

/-- `Engine::MaterialAsset` (CPU-only): texture handle slots and the
integer parameters; float PBR factors are copied verbatim and omitted. -/
structure MaterialAsset where
  alphaMode : Nat := 0
  doubleSided : Nat := 0
  baseColorTexture : Handle := {}
  normalTexture : Handle := {}
  metallicRoughnessTexture : Handle := {}
  occlusionTexture : Handle := {}
  emissiveTexture : Handle := {}
  baseColorTexCoord : Nat := 0
  normalTexCoord : Nat := 0
  metallicRoughnessTexCoord : Nat := 0
  occlusionTexCoord : Nat := 0
  emissiveTexCoord : Nat := 0
  deriving DecidableEq, Repr

/-- `Engine::ModelPrimitive`. -/
structure ModelPrimitive where
  mesh : Handle := {}
  material : Handle := {}
  firstIndex : Nat := 0
  indexCount : Nat := 0
  vertexOffset : Int := 0
  deriving DecidableEq, Repr

/-- `Engine::ModelAsset` (CPU-only). -/
structure ModelAsset where
  primitives : List ModelPrimitive := []
  deriving DecidableEq, Repr

/-- A registry entry (`MeshEntry` / `TextureEntry` / `MaterialEntry` /
`ModelEntry` of the missing `AssetManager.h`, whose used fields all appear
in the implementation): the owned asset, a generation stamp, a reference
count, a cache-key path (mesh/model) and the dependency handle lists
(textures for a material; meshes+materials for a model).  Unused fields
stay at their defaults for the kinds that do not have them.  The reference
count is modelled as an unbounded Nat, per spec §3. -/
structure RegEntry (α : Type) where
  asset : α
  generation : Nat := 1
  refCount : Nat := 0
  path : String := ""
  textureDeps : List Handle := []
  meshDeps : List Handle := []
  materialDeps : List Handle := []
  deriving DecidableEq, Repr

/-- A registry: the identifier → entry map of one resource kind. -/
abbrev Registry (α : Type) := List (Nat × RegEntry α)

/-- `map.find(id)`. -/
def lookupReg (reg : Registry α) (id : Nat) : Option (RegEntry α) :=
  match reg with
  | [] => none
  | (k, e) :: rest => if k = id then some e else lookupReg rest id

/-- Update the entry stored under `id` (first occurrence), as mutation
through a `find` iterator does. -/
def updFirst (reg : Registry α) (id : Nat) (f : RegEntry α → RegEntry α) :
    Registry α :=
  match reg with
  | [] => []
  | (k, e) :: rest =>
    if k = id then (k, f e) :: rest else (k, e) :: updFirst rest id f

/-- `AssetManager::addRef`: increment the reference count when the handle
resolves (identifier found and generation matches); no-op otherwise. -/
def regAddRef (reg : Registry α) (h : Handle) : Registry α :=
  match lookupReg reg h.id with
  | none => reg
  | some e =>
    if e.generation = h.generation then
      updFirst reg h.id (fun e => { e with refCount := e.refCount + 1 })
    else reg

/-- `AssetManager::release`: decrement when the handle resolves and the
count is positive; never deletes. -/
def regRelease (reg : Registry α) (h : Handle) : Registry α :=
  match lookupReg reg h.id with
  | none => reg
  | some e =>
    if e.generation = h.generation then
      updFirst reg h.id (fun e =>
        if 0 < e.refCount then { e with refCount := e.refCount - 1 } else e)
    else reg

/-- `AssetManager::get*`: the asset when the identifier is found and the
generation matches, absent otherwise. -/
def regGet (reg : Registry α) (h : Handle) : Option α :=
  match lookupReg reg h.id with
  | none => none
  | some e => if e.generation = h.generation then some e.asset else none

/-- Path-cache lookup (`std::unordered_map<std::string, Handle>::find`). -/
def lookupStr (cache : List (String × Handle)) (p : String) : Option Handle :=
  match cache with
  | [] => none
  | (k, h) :: rest => if k = p then some h else lookupStr rest p

/-- `cache.emplace(path, h)`: inserts only when the key is absent. -/
def emplaceStr (cache : List (String × Handle)) (p : String) (h : Handle) :
    List (String × Handle) :=
  match lookupStr cache p with
  | some _ => cache
  | none => cache ++ [(p, h)]

/-- `cache.erase(path)`. -/
def eraseStr (cache : List (String × Handle)) (p : String) :
    List (String × Handle) :=
  match cache with
  | [] => []
  | (k, h) :: rest => if k = p then rest else (k, h) :: eraseStr rest p

/-- The whole `AssetManager` mutable state: four registries, their
monotonic identifier counters and the two path caches.  Modelled from the
spec where the missing `AssetManager.h` decides it: counters start at 1 so
that identifier 0 is never allocated (an invalid handle never resolves). -/
structure AMState where
  meshes : Registry MeshAsset := []
  textures : Registry TextureAsset := []
  materials : Registry MaterialAsset := []
  models : Registry ModelAsset := []
  nextMeshID : Nat := 1
  nextTextureID : Nat := 1
  nextMaterialID : Nat := 1
  nextModelID : Nat := 1
  meshPathCache : List (String × Handle) := []
  modelPathCache : List (String × Handle) := []
  deriving DecidableEq, Repr

/-- A freshly constructed `AssetManager`. -/
def initAM : AMState := {}

-- Per-kind operations on the manager state (the four overloads).

def addRefMesh (s : AMState) (h : Handle) : AMState :=
  { s with meshes := regAddRef s.meshes h }
def releaseMesh (s : AMState) (h : Handle) : AMState :=
  { s with meshes := regRelease s.meshes h }
def addRefTexture (s : AMState) (h : Handle) : AMState :=
  { s with textures := regAddRef s.textures h }
def releaseTexture (s : AMState) (h : Handle) : AMState :=
  { s with textures := regRelease s.textures h }
def addRefMaterial (s : AMState) (h : Handle) : AMState :=
  { s with materials := regAddRef s.materials h }
def releaseMaterial (s : AMState) (h : Handle) : AMState :=
  { s with materials := regRelease s.materials h }
def addRefModel (s : AMState) (h : Handle) : AMState :=
  { s with models := regAddRef s.models h }
def releaseModel (s : AMState) (h : Handle) : AMState :=
  { s with models := regRelease s.models h }

def getMesh (s : AMState) (h : Handle) : Option MeshAsset := regGet s.meshes h
def getTexture (s : AMState) (h : Handle) : Option TextureAsset :=
  regGet s.textures h
def getMaterial (s : AMState) (h : Handle) : Option MaterialAsset :=
  regGet s.materials h
def getModel (s : AMState) (h : Handle) : Option ModelAsset := regGet s.models h

-- ------------------------------------------------------------
-- Garbage collection (AssetManager::garbageCollect): sweeps models,
-- then materials, then meshes, then textures; a dead entry's dependency
-- handles are released during the same pass, before the dependency's
-- own sweep runs.  Releases during a sweep only touch *other* kinds'
-- registries, so each sweep's liveness test reads the counts as they
-- stand when that sweep starts.
-- ------------------------------------------------------------

def sweepModels (s : AMState) : AMState :=
  let dead := s.models.filter (fun kv => kv.2.refCount = 0)
  let s' := dead.foldl (fun acc kv =>
      let acc := kv.2.meshDeps.foldl releaseMesh acc
      let acc := kv.2.materialDeps.foldl releaseMaterial acc
      { acc with modelPathCache := eraseStr acc.modelPathCache kv.2.path }) s
  { s' with models := s'.models.filter (fun kv => ¬ kv.2.refCount = 0) }

def sweepMaterials (s : AMState) : AMState :=
  let dead := s.materials.filter (fun kv => kv.2.refCount = 0)
  let s' := dead.foldl (fun acc kv =>
      kv.2.textureDeps.foldl releaseTexture acc) s
  { s' with materials := s'.materials.filter (fun kv => ¬ kv.2.refCount = 0) }

def sweepMeshes (s : AMState) : AMState :=
  let dead := s.meshes.filter (fun kv => kv.2.refCount = 0)
  let s' := dead.foldl (fun acc kv =>
      { acc with meshPathCache := eraseStr acc.meshPathCache kv.2.path }) s
  { s' with meshes := s'.meshes.filter (fun kv => ¬ kv.2.refCount = 0) }

def sweepTextures (s : AMState) : AMState :=
  { s with textures := s.textures.filter (fun kv => ¬ kv.2.refCount = 0) }

def garbageCollect (s : AMState) : AMState :=
  sweepTextures (sweepMeshes (sweepMaterials (sweepModels s)))

-- ------------------------------------------------------------
-- smodel sampler-enum → Vulkan mapping (toVkWrap / toVkFilter / toVkMip).
-- ------------------------------------------------------------

/-- The `VkSamplerAddressMode` values the mapping can produce. -/
inductive VkSamplerAddressMode where
  | repeatMode | clampToEdge | mirroredRepeat
  deriving DecidableEq, Repr

/-- The `VkFilter` values the mapping can produce. -/
inductive VkFilter where
  | nearest | linear
  deriving DecidableEq, Repr

/-- The `VkSamplerMipmapMode` values the mapping can produce. -/
inductive VkSamplerMipmapMode where
  | nearest | linear
  deriving DecidableEq, Repr

/-- `toVkWrap`: 1 = clamp, 2 = mirror, 0 and every unrecognized value fall
to the `default:` branch = repeat. -/
def toVkWrap (w : Nat) : VkSamplerAddressMode :=
  match w with
  | 1 => .clampToEdge
  | 2 => .mirroredRepeat
  | _ => .repeatMode

/-- `toVkFilter`: 1 = linear, 0 and every unrecognized value = nearest. -/
def toVkFilter (f : Nat) : VkFilter :=
  match f with
  | 1 => .linear
  | _ => .nearest

/-- `toVkMip`: 2 = linear, 0 / 1 and every unrecognized value = nearest. -/
def toVkMip (m : Nat) : VkSamplerMipmapMode :=
  match m with
  | 2 => .linear
  | _ => .nearest

-- ------------------------------------------------------------
-- Deferred upload transaction (UploadContext; TextureAsset upload path of
-- src/unnamed/part_000, the translation unit matching TextureAsset.h).
-- GPU calls are tracked as events; their success/failure comes from an
-- oracle, per the black-box collaborator contracts of spec §6.
-- ------------------------------------------------------------

/-- One GPU-facing call made during a load: command-pool/upload-context
management, per-upload object creation and command recording, the single
submit-and-wait, and the immediate-submit mesh-buffer upload
(`MeshAsset::upload`, which drives its own transient pool and queue and
does not touch the texture upload transaction). -/
inductive Event where
  | beginCtx
  | createStaging
  | createImage
  | cmdTransition
  | cmdCopy
  | cmdGenMips
  | createView
  | createSampler (wrapU wrapV : VkSamplerAddressMode)
      (minF magF : VkFilter) (mip : VkSamplerMipmapMode)
  | endSubmitAndWait
  | meshUpload
  deriving DecidableEq, Repr

/-- Number of `EndSubmitAndWait` invocations in a trace. -/
def countSubmits (tr : List Event) : Nat :=
  tr.countP (fun e => match e with | .endSubmitAndWait => true | _ => false)

/-- Success/failure outcomes of the opaque collaborators for one load:
image decode (per texture index, `some (w, h)` with the decoded
dimensions), GPU object creation results, the transaction begin/submit
results, and the per-mesh transient pool / buffer upload results. -/
structure GpuOracle where
  poolCreateOk : Bool := true
  beginOk : Bool := true
  decode : Nat → Option (Nat × Nat) := fun _ => some (1, 1)
  stagingOk : Nat → Bool := fun _ => true
  imageOk : Nat → Bool := fun _ => true
  mipsOk : Nat → Bool := fun _ => true
  viewOk : Nat → Bool := fun _ => true
  samplerOk : Nat → Bool := fun _ => true
  endSubmitOk : Bool := true
  meshPoolOk : Nat → Bool := fun _ => true
  meshUploadOk : Nat → Bool := fun _ => true

/-- Structural (fuel-based) floor of the base-2 logarithm: with fuel ≥ n,
`floorLog2Aux fuel n = ⌊log2 n⌋` for `n ≥ 1` (halving needs at most `n`
steps). -/
def floorLog2Aux : Nat → Nat → Nat
  | 0, _ => 0
  | fuel + 1, n => if 2 ≤ n then floorLog2Aux fuel (n / 2) + 1 else 0

/-- `calcMipLevels`: `floor(log2(max(w, h))) + 1`, and 1 when the larger
dimension is 0. -/
def calcMipLevels (w h : Nat) : Nat :=
  let maxDim := max w h
  if maxDim = 0 then 1 else floorLog2Aux maxDim maxDim + 1

/-- `TextureAsset::uploadEncodedImage_Deferred` followed by
`uploadRGBA8_Deferred` for texture record `t` at index `i`: decode the
encoded blob slice, then record (never submit) the staging copy, layout
transitions and mip generation, and create the image view and sampler.
`uploadTextureResult` is the value of that execution — the asset on
success, `none` for each `false` early return; `uploadTextureEvents` is
the trace of GPU calls the same execution made up to its exit point.  The
record's payload is abstracted: the decode oracle stands for
`stbi_load_from_memory` on the slice's bytes, and the `encodedSize == 0`
guard reads the record's declared slice size. -/
def uploadTextureResult (g : GpuOracle) (begun : Bool) (i : Nat)
    (t : SModelTextureRecord) : Option TextureAsset :=
  if t.imageDataSize = 0 then none else
  match g.decode i with
  | none => none
  | some (w, h) =>
    if begun = false then none else
    if w = 0 ∨ h = 0 then none else
    let srgb := decide (t.colorSpace = 1)
    let mips := calcMipLevels w h
    let mips := if 1 < mips then (if g.mipsOk i then mips else 1) else mips
    if g.stagingOk i = false then none else
    if g.imageOk i = false then none else
    if g.viewOk i = false then none else
    if g.samplerOk i = false then none else
    some { width := w, height := h, mipLevels := mips, srgb := srgb }

/-- The GPU calls recorded/attempted by the execution whose value is
`uploadTextureResult` (same branch structure; mip-generation fallback adds
the extra layout transition, a failed view/sampler creation was still an
attempted call). -/
def uploadTextureEvents (g : GpuOracle) (begun : Bool) (i : Nat)
    (t : SModelTextureRecord) : List Event :=
  if t.imageDataSize = 0 then [] else
  match g.decode i with
  | none => []
  | some (w, h) =>
    if begun = false then [] else
    if w = 0 ∨ h = 0 then [] else
    if g.stagingOk i = false then [.createStaging] else
    if g.imageOk i = false then [.createStaging, .createImage] else
    let recEvs := [Event.createStaging, Event.createImage,
        Event.cmdTransition, Event.cmdCopy]
    let recEvs :=
      if 1 < calcMipLevels w h then
        if g.mipsOk i then recEvs ++ [Event.cmdGenMips]
        else recEvs ++ [Event.cmdGenMips, Event.cmdTransition]
      else recEvs ++ [Event.cmdTransition]
    if g.viewOk i = false then recEvs ++ [.createView] else
    recEvs ++ [.createView,
      Event.createSampler (toVkWrap t.wrapU) (toVkWrap t.wrapV)
        (toVkFilter t.minFilter) (toVkFilter t.magFilter) (toVkMip t.mipFilter)]

-- ------------------------------------------------------------
-- AssetManager create/load operations.
-- ------------------------------------------------------------

/-- `AssetManager::createTexture_Internal`. -/
def createTexture_Internal (s : AMState) (tex : TextureAsset)
    (initialRef : Nat) : Handle × AMState :=
  let id := s.nextTextureID
  (⟨id, 1⟩,
    { s with
      textures := s.textures ++
        [(id, { asset := tex, generation := 1, refCount := initialRef })]
      nextTextureID := id + 1 })

/-- The five texture slots of a material, in the order
`createMaterial_Internal` inspects them. -/
def materialSlots (m : MaterialAsset) : List Handle :=
  [m.baseColorTexture, m.normalTexture, m.metallicRoughnessTexture,
    m.occlusionTexture, m.emissiveTexture]

/-- `AssetManager::createMaterial_Internal`: registers the material and
gathers its valid texture handles as dependency edges. -/
def createMaterial_Internal (s : AMState) (mat : MaterialAsset)
    (initialRef : Nat) : Handle × AMState :=
  let deps := (materialSlots mat).filter Handle.isValid
  let id := s.nextMaterialID
  (⟨id, 1⟩,
    { s with
      materials := s.materials ++
        [(id, { asset := mat, generation := 1, refCount := initialRef,
                textureDeps := deps })]
      nextMaterialID := id + 1 })

/-- `AssetManager::createModel_Internal` (dependency lists are filled by
`loadModel` right after creation). -/
def createModel_Internal (s : AMState) (model : ModelAsset) (path : String)
    (initialRef : Nat) : Handle × AMState :=
  let id := s.nextModelID
  (⟨id, 1⟩,
    { s with
      models := s.models ++
        [(id, { asset := model, generation := 1, refCount := initialRef,
                path := path })]
      nextModelID := id + 1 })

/-- `AssetManager::createMeshFromData_Internal`: a transient command pool
is created per mesh upload (`poolOk`), `MeshAsset::upload` records and
submits on it (`uploadOk`; the `.meshUpload` event marks that immediate
submission), and only on success is the mesh registered. -/
def createMeshFromData_Internal (s : AMState) (data : MeshData) (path : String)
    (initialRef : Nat) (poolOk uploadOk : Bool) :
    Handle × AMState × List Event :=
  if poolOk = false then (invalidHandle, s, []) else
  if uploadOk = false then (invalidHandle, s, [.meshUpload]) else
  let id := s.nextMeshID
  (⟨id, 1⟩,
    { s with
      meshes := s.meshes ++
        [(id, { asset := { vertexCount := data.vertexCount,
                           indexCount := data.indexCount },
                generation := 1, refCount := initialRef, path := path })]
      nextMeshID := id + 1 },
    [.meshUpload])

/-- `AssetManager::loadMesh`: cache hit adds a reference; on a miss, parse
the standalone mesh payload (`parsed` = the `LoadSMeshV0FromFile` result),
upload, register and cache. -/
def loadMesh (s : AMState) (path : String) (parsed : Option MeshData)
    (poolOk uploadOk : Bool) : Handle × AMState × List Event :=
  match lookupStr s.meshPathCache path with
  | some h => (h, addRefMesh s h, [])
  | none =>
    match parsed with
    | none => (invalidHandle, s, [])
    | some data =>
      let r := createMeshFromData_Internal s data path 1 poolOk uploadOk
      if r.1.isValid then
        (r.1, { r.2.1 with
          meshPathCache := emplaceStr r.2.1.meshPathCache path r.1 }, r.2.2)
      else r

/-- The texture loop of `loadModel`: upload texture `i .. i+n-1` in order,
registering each successful one at reference count 0; the first failing
upload aborts the loop. -/
def uploadLoop (g : GpuOracle) (textures : List SModelTextureRecord) :
    Nat → Nat → AMState → Bool × AMState × List Handle × List Event
  | _, 0, s => (true, s, [], [])
  | i, n + 1, s =>
    let evs := uploadTextureEvents g true i (textures.getD i {})
    match uploadTextureResult g true i (textures.getD i {}) with
    | none => (false, s, [], evs)
    | some tex =>
      let c := createTexture_Internal s tex 0
      let r := uploadLoop g textures (i + 1) n c.2
      (r.1, r.2.1, c.1 :: r.2.2.1, evs ++ r.2.2.2)

/-- `-1` means "no texture"; otherwise index into the handles created by
the texture loop. -/
def grabTex (texHandles : List Handle) (idx : Int) : Handle :=
  if idx < 0 then invalidHandle else texHandles.getD idx.toNat invalidHandle

/-- Builds the CPU material from its record, resolving texture indices to
handles. -/
def buildMaterial (texHandles : List Handle) (m : SModelMaterialRecord) :
    MaterialAsset :=
  { alphaMode := m.alphaMode
    doubleSided := m.doubleSided
    baseColorTexture := grabTex texHandles m.baseColorTexture
    normalTexture := grabTex texHandles m.normalTexture
    metallicRoughnessTexture := grabTex texHandles m.metallicRoughnessTexture
    occlusionTexture := grabTex texHandles m.occlusionTexture
    emissiveTexture := grabTex texHandles m.emissiveTexture
    baseColorTexCoord := m.baseColorTexCoord
    normalTexCoord := m.normalTexCoord
    metallicRoughnessTexCoord := m.metallicRoughnessTexCoord
    occlusionTexCoord := m.occlusionTexCoord
    emissiveTexCoord := m.emissiveTexCoord }

/-- After registering a material, `loadModel` looks it up again and adds a
reference to each valid texture it uses. -/
def addRefMaterialTextures (s : AMState) (mh : Handle) : AMState :=
  match getMaterial s mh with
  | none => s
  | some cm =>
    let s := if cm.baseColorTexture.isValid then addRefTexture s cm.baseColorTexture else s
    let s := if cm.normalTexture.isValid then addRefTexture s cm.normalTexture else s
    let s := if cm.metallicRoughnessTexture.isValid then addRefTexture s cm.metallicRoughnessTexture else s
    let s := if cm.occlusionTexture.isValid then addRefTexture s cm.occlusionTexture else s
    if cm.emissiveTexture.isValid then addRefTexture s cm.emissiveTexture else s

/-- The material loop of `loadModel`: each material is registered at
reference count 0 and then adds a reference to each texture it uses. -/
def materialLoop (texHandles : List Handle) (mats : List SModelMaterialRecord) :
    Nat → Nat → AMState → AMState × List Handle
  | _, 0, s => (s, [])
  | i, n + 1, s =>
    let m := mats.getD i {}
    let c := createMaterial_Internal s (buildMaterial texHandles m) 0
    let s'' := addRefMaterialTextures c.2 c.1
    let r := materialLoop texHandles mats (i + 1) n s''
    (r.1, c.1 :: r.2)

/-- The mesh loop of `loadModel`: each mesh record's buffers are uploaded
through `createMeshFromData_Internal` at reference count 0.  A failed mesh
upload leaves an invalid handle in the list and the loop continues. -/
def meshLoop (g : GpuOracle) (meshes : List SModelMeshRecord) (path : String) :
    Nat → Nat → AMState → AMState × List Handle × List Event
  | _, 0, s => (s, [], [])
  | i, n + 1, s =>
    let mr := meshes.getD i {}
    let md : MeshData :=
      { vertexCount := mr.vertexCount, indexCount := mr.indexCount,
        vertexStride := mr.vertexStride,
        indexFormat := if mr.indexType = 0 then 0 else 1 }
    let c := createMeshFromData_Internal s md
        (path ++ "#mesh" ++ toString i) 0 (g.meshPoolOk i) (g.meshUploadOk i)
    let r := meshLoop g meshes path (i + 1) n c.2.1
    (r.1, c.1 :: r.2.1, c.2.2 ++ r.2.2)

/-- The primitive loop of `loadModel`: map each primitive record's
mesh/material indices to the created handles, adding a reference per
primitive usage and collecting the model's dependency lists. -/
def primLoop (prims : List SModelPrimitiveRecord) (meshHandles matHandles : List Handle) :
    Nat → Nat → AMState →
    AMState × List ModelPrimitive × List Handle × List Handle
  | _, 0, s => (s, [], [], [])
  | i, n + 1, s =>
    let p := prims.getD i {}
    let prim : ModelPrimitive :=
      { mesh := meshHandles.getD p.meshIndex invalidHandle
        material := matHandles.getD p.materialIndex invalidHandle
        firstIndex := p.firstIndex, indexCount := p.indexCount,
        vertexOffset := p.vertexOffset }
    let s1 := if prim.mesh.isValid then addRefMesh s prim.mesh else s
    let meshDep : List Handle := if prim.mesh.isValid then [prim.mesh] else []
    let s2 := if prim.material.isValid then addRefMaterial s1 prim.material else s1
    let matDep : List Handle :=
      if prim.material.isValid then [prim.material] else []
    let r := primLoop prims meshHandles matHandles (i + 1) n s2
    (r.1, prim :: r.2.1, meshDep ++ r.2.2.1, matDep ++ r.2.2.2)

/-- The tail of a cache-miss `loadModel` once all textures uploaded and
the single submit-and-wait succeeded: build materials, upload meshes,
assemble primitives with dependency references, register and cache the
model. -/
def loadModelSuccess (s1 : AMState) (texHandles : List Handle)
    (texEvs : List Event) (view : SModelFile) (path : String) (g : GpuOracle) :
    Handle × AMState × List Event :=
  let evs0 := Event.beginCtx :: texEvs ++ [Event.endSubmitAndWait]
  let rmat :=
    materialLoop texHandles view.materials 0 view.header.materialCount s1
  let rmesh := meshLoop g view.meshes path 0 view.header.meshCount rmat.1
  let rprim :=
    primLoop view.primitives rmesh.2.1 rmat.2 0 view.header.primitiveCount rmesh.1
  let rmodel := createModel_Internal rprim.1 { primitives := rprim.2.1 } path 1
  let mh := rmodel.1
  let s6 := { rmodel.2 with
    models := updFirst rmodel.2.models mh.id
      (fun e => { e with meshDeps := rprim.2.2.1, materialDeps := rprim.2.2.2 }) }
  let s7 := { s6 with modelPathCache := emplaceStr s6.modelPathCache path mh }
  (mh, s7, evs0 ++ rmesh.2.2)

/-- The cache-miss path of `AssetManager::loadModel`: parse, create the
upload pool, begin the transaction, upload all textures, close the
transaction with the single submit-and-wait, then `loadModelSuccess`. -/
def loadModelFresh (s : AMState) (path : String)
    (parsed : Except String SModelFile) (g : GpuOracle) :
    Handle × AMState × List Event :=
  match parsed with
  | .error _ => (invalidHandle, s, [])
  | .ok view =>
    if g.poolCreateOk = false then (invalidHandle, s, []) else
    if g.beginOk = false then (invalidHandle, s, []) else
    let r := uploadLoop g view.textures 0 view.header.textureCount s
    if r.1 = false then
      -- cleanup on failure: EndSubmitAndWait is still invoked once
      (invalidHandle, r.2.1, Event.beginCtx :: r.2.2.2 ++ [Event.endSubmitAndWait])
    else
    if g.endSubmitOk = false then
      (invalidHandle, r.2.1, Event.beginCtx :: r.2.2.2 ++ [Event.endSubmitAndWait])
    else
    loadModelSuccess r.2.1 r.2.2.1 r.2.2.2 view path g

/-- `AssetManager::loadModel`.  `parsed` is the `LoadSModelFile` outcome
for `path` (compose with `loadSModelFile` to model the real parse); the
oracle supplies every opaque GPU result.  Returns the handle, the new
manager state and the GPU call trace of this load. -/
def loadModel (s : AMState) (path : String) (parsed : Except String SModelFile)
    (g : GpuOracle) : Handle × AMState × List Event :=
  match lookupStr s.modelPathCache path with
  | some h => (h, addRefModel s h, [])
  | none => loadModelFresh s path parsed g

-- ------------------------------------------------------------
-- Registry lemmas
-- ------------------------------------------------------------

theorem lookupReg_updFirst_self (reg : Registry α) (id : Nat)
    (f : RegEntry α → RegEntry α) :
    lookupReg (updFirst reg id f) id = (lookupReg reg id).map f := by
  induction reg with
  | nil => simp [updFirst, lookupReg]
  | cons kv rest ih =>
    obtain ⟨k, e⟩ := kv
    by_cases hk : k = id
    · simp [updFirst, lookupReg, hk]
    · simp [updFirst, lookupReg, hk, ih]

theorem updFirst_updFirst (reg : Registry α) (id : Nat)
    (f g : RegEntry α → RegEntry α) :
    updFirst (updFirst reg id f) id g = updFirst reg id (fun e => g (f e)) := by
  induction reg with
  | nil => simp [updFirst]
  | cons kv rest ih =>
    obtain ⟨k, e⟩ := kv
    by_cases hk : k = id
    · simp [updFirst, hk]
    · simp [updFirst, hk, ih]

theorem updFirst_id (reg : Registry α) (id : Nat)
    (f : RegEntry α → RegEntry α) (hf : ∀ e, f e = e) :
    updFirst reg id f = reg := by
  induction reg with
  | nil => simp [updFirst]
  | cons kv rest ih =>
    obtain ⟨k, e⟩ := kv
    by_cases hk : k = id
    · simp [updFirst, hk, hf]
    · simp [updFirst, hk, ih]

/-- Incrementing then conditionally decrementing a resolved entry's
reference count is the identity on the whole registry. -/
theorem regRelease_regAddRef (reg : Registry α) (h : Handle) :
    regRelease (regAddRef reg h) h = reg := by
  unfold regAddRef
  cases hl : lookupReg reg h.id with
  | none => simp [regRelease, hl]
  | some e =>
    by_cases hg : e.generation = h.generation
    · dsimp only
      rw [if_pos hg]
      unfold regRelease
      rw [lookupReg_updFirst_self, hl]
      have hmap : (Option.map
            (fun e => { e with refCount := e.refCount + 1 }) (some e) :
            Option (RegEntry α)) = some { e with refCount := e.refCount + 1 } :=
        rfl
      rw [hmap]
      dsimp only
      rw [if_pos (show ({ e with refCount := e.refCount + 1 } :
          RegEntry α).generation = h.generation from hg)]
      rw [updFirst_updFirst]
      exact updFirst_id reg h.id _ (fun e' => by simp)
    · simp [regRelease, hl, hg]

/-- C6: `addRef(h)` immediately followed by `release(h)` is the identity
on the manager state — for every state, every handle and each of the four
resource kinds (resolving, stale and invalid handles alike), so in
particular every registry entry's reference count is unchanged. -/
theorem addRef_release_cancel (s : AMState) (h : Handle) :
    releaseMesh (addRefMesh s h) h = s ∧
    releaseTexture (addRefTexture s h) h = s ∧
    releaseMaterial (addRefMaterial s h) h = s ∧
    releaseModel (addRefModel s h) h = s := by
  refine ⟨?_, ?_, ?_, ?_⟩ <;>
    simp [releaseMesh, addRefMesh, releaseTexture, addRefTexture,
      releaseMaterial, addRefMaterial, releaseModel, addRefModel,
      regRelease_regAddRef]

-- ------------------------------------------------------------
-- C2: bounds-check arithmetic of LoadSModelFile
-- ------------------------------------------------------------

theorem guardE_ok_iff (c : Prop) [Decidable c] (m : String) :
    guardE c m = .ok () ↔ ¬ c := by
  unfold guardE
  split_ifs with hc <;> simp [hc]

/-- For a file whose byte count is below `2^63`, `isRangeInsideFile`
acceptance really bounds the (non-wrapped) sum: the first two guards bound
both operands by the file size, so their sum cannot reach `2^64`. -/
theorem isRangeInsideFile_sound (bg sz fsz : Nat) (hf : fsz < 2 ^ 63)
    (h : isRangeInsideFile bg sz fsz = true) : bg + sz ≤ fsz := by
  unfold isRangeInsideFile at h
  by_cases h1 : fsz < bg
  · rw [if_pos h1] at h
    exact absurd h (by simp)
  rw [if_neg h1] at h
  by_cases h2 : fsz < sz
  · rw [if_pos h2] at h
    exact absurd h (by simp)
  rw [if_neg h2] at h
  by_cases h3 : fsz < u64add bg sz
  · rw [if_pos h3] at h
    exact absurd h (by simp)
  unfold u64add at h3
  rw [Nat.mod_eq_of_lt (by omega)] at h3
  omega

/-- Table byte extents cannot wrap: a 32-bit count times an element size of
at most 104 bytes stays far below `2^64`, so acceptance bounds the true
extent. -/
theorem tableRangeValid_sound (off count esize fsz : Nat)
    (hc : count < 2 ^ 32) (he : esize ≤ 104) (hf : fsz < 2 ^ 63)
    (h : tableRangeValid off count esize fsz = true) :
    off + count * esize ≤ fsz := by
  unfold tableRangeValid at h
  have hmul : u64mul count esize = count * esize := by
    unfold u64mul
    have h1 : count * esize ≤ count * 104 := Nat.mul_le_mul_left count he
    have h2 : count * 104 < 2 ^ 32 * 104 :=
      Nat.mul_lt_mul_of_lt_of_le hc (le_refl 104) (by norm_num)
    exact Nat.mod_eq_of_lt (by omega)
  rw [hmul] at h
  exact isRangeInsideFile_sound _ _ _ hf h

/-- The blob-slice acceptance condition is only sound modulo `2^64`: the
sum either fits the blob or has wrapped the 64-bit range. -/
theorem blobSliceAccept (off sz blob : Nat) (h : ¬ blob < u64add off sz) :
    off + sz ≤ blob ∨ 2 ^ 64 ≤ off + sz := by
  by_cases hw : off + sz < 2 ^ 64
  · left
    unfold u64add at h
    rw [Nat.mod_eq_of_lt hw] at h
    omega
  · right
    omega

/-- The `uint32_t` bound every header count satisfies by type. -/
def countsBounded (h : SModelHeader) : Prop :=
  h.meshCount < 2 ^ 32 ∧ h.primitiveCount < 2 ^ 32 ∧
  h.materialCount < 2 ^ 32 ∧ h.textureCount < 2 ^ 32 ∧
  h.nodeCount < 2 ^ 32 ∧ h.nodePrimitiveIndexCount < 2 ^ 32 ∧
  h.nodeChildIndicesCount < 2 ^ 32 ∧ h.animClipsCount < 2 ^ 32 ∧
  h.animChannelsCount < 2 ^ 32 ∧ h.animSamplersCount < 2 ^ 32 ∧
  h.animTimesCount < 2 ^ 32 ∧ h.animValuesCount < 2 ^ 32

instance (h : SModelHeader) : Decidable (countsBounded h) := by
  unfold countsBounded
  infer_instance

/-- C2 counterexample file: a texture record whose encoded-image slice has
`imageDataOffset + imageDataSize = 2^64 + 4`, wrapping to 4 in the
`uint64_t` comparison against `blobSize = 4`; the slice lies far outside
the 4-byte blob, yet the file is accepted. -/
def c2CounterFile : SModelFile :=
  { header := { magic := smodMagic, versionMajor := 1, textureCount := 1,
                blobSize := 4 }
    textures := [{ imageDataOffset := 2 ^ 64 - 4, imageDataSize := 8 }]
    fileSize := 120 }

/-- C2 is false as stated: `LoadSModelFile` accepts `c2CounterFile`
although its only texture record's `offset + size` extent wraps the 64-bit
range and does not lie inside the blob. -/
theorem c2_blob_slice_wrap_accepted :
    loadSModelFile c2CounterFile = .ok () ∧
    2 ^ 64 ≤ (c2CounterFile.textures.getD 0 {}).imageDataOffset +
        (c2CounterFile.textures.getD 0 {}).imageDataSize ∧
    c2CounterFile.header.blobSize <
      (c2CounterFile.textures.getD 0 {}).imageDataOffset +
        (c2CounterFile.textures.getD 0 {}).imageDataSize := by
  refine ⟨by rfl, by norm_num [c2CounterFile], by norm_num [c2CounterFile]⟩

/-- C2 amended: every *table* accepted by `LoadSModelFile` (for a real
file: counts are `uint32_t`, the buffer is smaller than `2^63` bytes) has
its true `offset + byte-extent` inside the file — that arithmetic is
overflow-safe — but an accepted mesh/texture *record blob slice* is only
bounded modulo `2^64`: its `offset + size` either fits the blob or wraps
the 64-bit range. -/
theorem c2_amended (f : SModelFile) (hb : countsBounded f.header)
    (hfs : f.fileSize < 2 ^ 63) (hok : loadSModelFile f = .ok ()) :
    (f.header.stringTableOffset + f.header.stringTableSize ≤ f.fileSize) ∧
    (f.header.blobOffset + f.header.blobSize ≤ f.fileSize) ∧
    (f.header.meshesOffset + f.header.meshCount * 80 ≤ f.fileSize) ∧
    (f.header.primitivesOffset + f.header.primitiveCount * 20 ≤ f.fileSize) ∧
    (f.header.materialsOffset + f.header.materialCount * 104 ≤ f.fileSize) ∧
    (f.header.texturesOffset + f.header.textureCount * 64 ≤ f.fileSize) ∧
    (0 < f.header.nodeCount →
      f.header.nodesOffset + f.header.nodeCount * 20 ≤ f.fileSize) ∧
    (0 < f.header.nodePrimitiveIndexCount →
      f.header.nodePrimitiveIndicesOffset +
        f.header.nodePrimitiveIndexCount * 4 ≤ f.fileSize) ∧
    (0 < f.header.nodeChildIndicesCount →
      f.header.nodeChildIndicesOffset +
        f.header.nodeChildIndicesCount * 4 ≤ f.fileSize) ∧
    (0 < f.header.animClipsCount →
      f.header.animClipsOffset + f.header.animClipsCount * 16 ≤ f.fileSize) ∧
    (0 < f.header.animChannelsCount →
      f.header.animChannelsOffset + f.header.animChannelsCount * 8 ≤ f.fileSize) ∧
    (0 < f.header.animSamplersCount →
      f.header.animSamplersOffset + f.header.animSamplersCount * 20 ≤ f.fileSize) ∧
    (0 < f.header.animTimesCount →
      f.header.animTimesOffset + f.header.animTimesCount * 4 ≤ f.fileSize) ∧
    (0 < f.header.animValuesCount →
      f.header.animValuesOffset + f.header.animValuesCount * 4 ≤ f.fileSize) ∧
    (∀ i, i < f.header.meshCount →
      ((f.meshes.getD i {}).vertexDataOffset + (f.meshes.getD i {}).vertexDataSize
          ≤ f.header.blobSize ∨
        2 ^ 64 ≤ (f.meshes.getD i {}).vertexDataOffset +
          (f.meshes.getD i {}).vertexDataSize) ∧
      ((f.meshes.getD i {}).indexDataOffset + (f.meshes.getD i {}).indexDataSize
          ≤ f.header.blobSize ∨
        2 ^ 64 ≤ (f.meshes.getD i {}).indexDataOffset +
          (f.meshes.getD i {}).indexDataSize)) ∧
    (∀ i, i < f.header.textureCount →
      ((f.textures.getD i {}).imageDataOffset + (f.textures.getD i {}).imageDataSize
          ≤ f.header.blobSize ∨
        2 ^ 64 ≤ (f.textures.getD i {}).imageDataOffset +
          (f.textures.getD i {}).imageDataSize)) := by
  obtain ⟨hb1, hb2, hb3, hb4, hb5, hb6, hb7, hb8, hb9, hb10, hb11, hb12⟩ := hb
  simp only [loadSModelFile, andThen_ok_iff] at hok
  obtain ⟨-, hsec, hmesh, htex, -⟩ := hok
  simp only [sectionChecks, andThen_ok_iff, guardE_ok_iff,
    Bool.not_eq_false] at hsec
  obtain ⟨hs1, hs2, hs3, hs4, hs5, hs6, hs7, hs8, hs9, hs10, hs11, hs12,
    hs13, hs14⟩ := hsec
  refine ⟨isRangeInsideFile_sound _ _ _ hfs hs1,
    isRangeInsideFile_sound _ _ _ hfs hs2,
    tableRangeValid_sound _ _ _ _ hb1 (by norm_num) hfs hs3,
    tableRangeValid_sound _ _ _ _ hb2 (by norm_num) hfs hs4,
    tableRangeValid_sound _ _ _ _ hb3 (by norm_num) hfs hs5,
    tableRangeValid_sound _ _ _ _ hb4 (by norm_num) hfs hs6,
    ?_, ?_, ?_, ?_, ?_, ?_, ?_, ?_, ?_, ?_⟩
  · intro hn
    have := not_and.mp hs7 hn
    exact tableRangeValid_sound _ _ _ _ hb5 (by norm_num) hfs (by simpa using this)
  · intro hn
    have h4 : u64mul f.header.nodePrimitiveIndexCount 4 =
        f.header.nodePrimitiveIndexCount * 4 := by
      unfold u64mul
      exact Nat.mod_eq_of_lt (by omega)
    have := not_and.mp hs8 hn
    have hrange : isRangeInsideFile f.header.nodePrimitiveIndicesOffset
        (u64mul f.header.nodePrimitiveIndexCount 4) f.fileSize = true := by
      simpa using this
    rw [h4] at hrange
    exact isRangeInsideFile_sound _ _ _ hfs hrange
  · intro hn
    have h4 : u64mul f.header.nodeChildIndicesCount 4 =
        f.header.nodeChildIndicesCount * 4 := by
      unfold u64mul
      exact Nat.mod_eq_of_lt (by omega)
    have := not_and.mp hs9 hn
    have hrange : isRangeInsideFile f.header.nodeChildIndicesOffset
        (u64mul f.header.nodeChildIndicesCount 4) f.fileSize = true := by
      simpa using this
    rw [h4] at hrange
    exact isRangeInsideFile_sound _ _ _ hfs hrange
  · intro hn
    exact tableRangeValid_sound _ _ _ _ hb8 (by norm_num) hfs
      (by simpa using not_and.mp hs10 hn)
  · intro hn
    exact tableRangeValid_sound _ _ _ _ hb9 (by norm_num) hfs
      (by simpa using not_and.mp hs11 hn)
  · intro hn
    exact tableRangeValid_sound _ _ _ _ hb10 (by norm_num) hfs
      (by simpa using not_and.mp hs12 hn)
  · intro hn
    exact tableRangeValid_sound _ _ _ _ hb11 (by norm_num) hfs
      (by simpa using not_and.mp hs13 hn)
  · intro hn
    exact tableRangeValid_sound _ _ _ _ hb12 (by norm_num) hfs
      (by simpa using not_and.mp hs14 hn)
  · intro i hi
    have := (checkRange_ok_iff _ _ _).mp hmesh i hi
    simp only [Nat.zero_add, meshSliceCheck, andThen_ok_iff, guardE_ok_iff] at this
    exact ⟨blobSliceAccept _ _ _ this.1, blobSliceAccept _ _ _ this.2.1⟩
  · intro i hi
    have := (checkRange_ok_iff _ _ _).mp htex i hi
    simp only [Nat.zero_add, textureSliceCheck, guardE_ok_iff] at this
    exact blobSliceAccept _ _ _ this

/-- A minimal well-formed container: compatible header, all counts zero. -/
def minimalSModelFile : SModelFile :=
  { header := { magic := smodMagic, versionMajor := 1 }, fileSize := 120 }

/-- C2 amended, witnessed at `minimalSModelFile`. -/
theorem c2_amended_witness :
    minimalSModelFile.header.stringTableOffset +
        minimalSModelFile.header.stringTableSize ≤ minimalSModelFile.fileSize :=
  (c2_amended minimalSModelFile (by decide) (by norm_num [minimalSModelFile])
    (by rfl)).1

-- ------------------------------------------------------------
-- C8: non-decreasing sampler times
-- ------------------------------------------------------------

theorem andThen_ok_left (b : Except String Unit) : andThen (.ok ()) b = b := rfl

/-- A validation loop whose body can only fail with one fixed message
either passes or produces that message. -/
theorem checkRange_guard_cases (p : Nat → Prop) [DecidablePred p]
    (msg : String) (i n : Nat) :
    checkRange (fun k => guardE (p k) msg) i n = .ok () ∨
      checkRange (fun k => guardE (p k) msg) i n = .error msg := by
  induction n generalizing i with
  | zero => left; rfl
  | succ m ih =>
    by_cases hp : p i
    · right
      simp [checkRange, guardE, hp, andThen]
    · have : checkRange (fun k => guardE (p k) msg) i (m + 1) =
          checkRange (fun k => guardE (p k) msg) (i + 1) m := by
        simp [checkRange, guardE, hp, andThen]
      rw [this]
      exact ih (i + 1)

/-- If every iteration of a validation loop either passes or fails with
`msg`, and some iteration does not pass, the loop fails with `msg`. -/
theorem checkRange_err_of_exists (f : Nat → Except String Unit) (msg : String)
    (i n : Nat)
    (hall : ∀ k, k < n → f (i + k) = .ok () ∨ f (i + k) = .error msg)
    (hex : ∃ k, k < n ∧ f (i + k) ≠ .ok ()) :
    checkRange f i n = .error msg := by
  induction n generalizing i with
  | zero =>
    obtain ⟨k, hk, _⟩ := hex
    omega
  | succ m ih =>
    rcases hall 0 (Nat.succ_pos m) with h0 | h0
    · rw [Nat.add_zero] at h0
      rw [checkRange, h0, andThen_ok_left]
      apply ih (i + 1)
      · intro k hk
        have := hall (k + 1) (by omega)
        simpa [Nat.add_comm, Nat.add_left_comm, Nat.add_assoc] using this
      · obtain ⟨k, hk, hne⟩ := hex
        match k, hk, hne with
        | 0, _, hne => exact absurd (by simpa using h0) (by simpa using hne)
        | k' + 1, hk, hne =>
          exact ⟨k', by omega, by
            simpa [Nat.add_comm, Nat.add_left_comm, Nat.add_assoc] using hne⟩
    · rw [Nat.add_zero] at h0
      rw [checkRange, h0]
      rfl

/-- C8: a container that passes every validation stage before the
per-sampler time-monotonicity loop (header, sections, slices,
cross-references, nodes, clip/channel checks, and every sampler's
structural checks) but contains a sampler with an adjacent decreasing time
pair fails with exactly the non-decreasing-times violation, producing no
valid view. -/
theorem c8_decreasing_times_rejected (f : SModelFile)
    (hhdr : headerChecks f = .ok ()) (hsec : sectionChecks f = .ok ())
    (hmesh : meshSliceChecks f = .ok ()) (htex : textureSliceChecks f = .ok ())
    (hprim : primitiveChecks f = .ok ()) (hmat : materialChecks f = .ok ())
    (hnode : nodeChecks f = .ok ()) (hnull : animNullChecks f = .ok ())
    (hclip : checkRange (clipCheck f) 0 f.header.animClipsCount = .ok ())
    (hchan : checkRange (channelCheck f) 0 f.header.animChannelsCount = .ok ())
    (hstruct : ∀ si, si < f.header.animSamplersCount →
      samplerStructCheck f si = .ok ())
    (hbad : ∃ si ti, si < f.header.animSamplersCount ∧ 1 ≤ ti ∧
      ti < (f.animSamplers.getD si {}).timeCount ∧
      f.animTimes.getD ((f.animSamplers.getD si {}).firstTime + ti) 0 <
        f.animTimes.getD ((f.animSamplers.getD si {}).firstTime + (ti - 1)) 0) :
    loadSModelFile f = .error timesErrMsg := by
  have hsamp : checkRange (samplerCheck f) 0 f.header.animSamplersCount =
      .error timesErrMsg := by
    apply checkRange_err_of_exists
    · intro k hk
      rw [Nat.zero_add, samplerCheck, hstruct k hk, andThen_ok_left,
        samplerTimesCheck]
      exact checkRange_guard_cases _ _ _ _
    · obtain ⟨si, ti, hsi, hti1, hti2, hlt⟩ := hbad
      refine ⟨si, hsi, ?_⟩
      rw [Nat.zero_add, samplerCheck, hstruct si hsi, andThen_ok_left,
        samplerTimesCheck]
      intro hok
      have := (checkRange_ok_iff _ _ _).mp hok (ti - 1) (by omega)
      rw [show 1 + (ti - 1) = ti by omega] at this
      rw [guardE_ok_iff] at this
      exact this hlt
  rw [loadSModelFile, hhdr, andThen_ok_left, hsec, andThen_ok_left, hmesh,
    andThen_ok_left, htex, andThen_ok_left, hprim, andThen_ok_left, hmat,
    andThen_ok_left, hnode, andThen_ok_left, animChecks, hnull,
    andThen_ok_left, hclip, andThen_ok_left, hchan, andThen_ok_left, hsamp]

/-- The spec's example: one V3 sampler, `timeCount = 3`, times
`[0.0, 0.5, 0.2]` (the third smaller than the second). -/
def c8WitnessFile : SModelFile :=
  { header := { magic := smodMagic, versionMajor := 3, animSamplersCount := 1,
                animTimesCount := 3, animValuesCount := 9 }
    animSamplers := [{ timeCount := 3, valueCount := 9, interpolation := 1,
                       valueType := 0 }]
    animTimes := [0, 1/2, 1/5]
    fileSize := 120 }

theorem c8_decreasing_times_rejected_witness :
    loadSModelFile c8WitnessFile = .error timesErrMsg := by
  refine c8_decreasing_times_rejected c8WitnessFile rfl rfl rfl rfl rfl rfl rfl
    rfl rfl rfl ?_ ?_
  · intro si hsi
    have hz : si = 0 := by
      simpa [c8WitnessFile] using hsi
    subst hz
    rfl
  · refine ⟨0, 2, by norm_num [c8WitnessFile], by norm_num, ?_, ?_⟩
    · norm_num [c8WitnessFile]
    · norm_num [c8WitnessFile]

-- ------------------------------------------------------------
-- C5: parse failure mutates nothing and issues no GPU work
-- ------------------------------------------------------------

/-- C5: on a cache miss whose container parse fails, `loadModel` returns
the invalid handle, the manager state is returned exactly as it was (all
four registries, both path caches, all identifier counters) and the GPU
call trace is empty. -/
theorem c5_parse_failure_no_mutation (s : AMState) (path e : String)
    (g : GpuOracle) (hmiss : lookupStr s.modelPathCache path = none) :
    loadModel s path (.error e) g = (invalidHandle, s, []) := by
  rw [loadModel, hmiss]
  rfl

theorem c5_parse_failure_no_mutation_witness :
    loadModel initAM "model.smodel" (.error "boom") {} =
      (invalidHandle, initAM, []) :=
  c5_parse_failure_no_mutation initAM "model.smodel" "boom" {} rfl

-- ------------------------------------------------------------
-- C10: sampler enums are never validated; unrecognized values default
-- ------------------------------------------------------------

/-- Two texture records that agree on everything except the five sampler
enum fields (wrapU, wrapV, minFilter, magFilter, mipFilter). -/
def sameButSamplerEnums (t t' : SModelTextureRecord) : Prop :=
  t.nameStrOffset = t'.nameStrOffset ∧ t.uriStrOffset = t'.uriStrOffset ∧
  t.colorSpace = t'.colorSpace ∧ t.encoding = t'.encoding ∧
  t.imageDataOffset = t'.imageDataOffset ∧ t.imageDataSize = t'.imageDataSize

/-- Two containers that differ only in texture sampler enum fields. -/
def SamplerEnumVariant (f f' : SModelFile) : Prop :=
  f.header = f'.header ∧ f.meshes = f'.meshes ∧
  f.primitives = f'.primitives ∧ f.materials = f'.materials ∧
  f.nodes = f'.nodes ∧ f.nodePrimitiveIndices = f'.nodePrimitiveIndices ∧
  f.nodeChildIndices = f'.nodeChildIndices ∧ f.animClips = f'.animClips ∧
  f.animChannels = f'.animChannels ∧ f.animSamplers = f'.animSamplers ∧
  f.animTimes = f'.animTimes ∧ f.animValues = f'.animValues ∧
  f.fileSize = f'.fileSize ∧
  ∀ k, sameButSamplerEnums (f.textures.getD k {}) (f'.textures.getD k {})

theorem samplerEnumVariant_eq (f f' : SModelFile) (h : SamplerEnumVariant f f') :
    f' = { f with textures := f'.textures } := by
  obtain ⟨e1, e2, e3, e4, e5, e6, e7, e8, e9, e10, e11, e12, e13, -⟩ := h
  cases f
  cases f'
  simp_all

theorem checkRange_congr (f g : Nat → Except String Unit) (i n : Nat)
    (h : ∀ k, f k = g k) : checkRange f i n = checkRange g i n := by
  induction n generalizing i with
  | zero => rfl
  | succ m ih => rw [checkRange, checkRange, h i, ih (i + 1)]

/-- The parse outcome never reads a texture record's sampler enums. -/
theorem loadSModelFile_samplerEnum_congr (f f' : SModelFile)
    (h : SamplerEnumVariant f f') : loadSModelFile f = loadSModelFile f' := by
  rw [samplerEnumVariant_eq f f' h]
  have htex : textureSliceChecks { f with textures := f'.textures } =
      textureSliceChecks f := by
    unfold textureSliceChecks
    apply checkRange_congr
    intro k
    obtain ⟨-, -, -, -, h5, h6⟩ := h.2.2.2.2.2.2.2.2.2.2.2.2.2 k
    simp only [textureSliceCheck]
    rw [← h5, ← h6]
  unfold loadSModelFile
  rw [htex]
  rfl

/-- The upload result never reads a texture record's sampler enums. -/
theorem uploadTextureResult_samplerEnum_congr (g : GpuOracle) (begun : Bool)
    (i : Nat) (t t' : SModelTextureRecord) (h : sameButSamplerEnums t t') :
    uploadTextureResult g begun i t = uploadTextureResult g begun i t' := by
  obtain ⟨h1, h2, h3, h4, h5, h6⟩ := h
  unfold uploadTextureResult
  rw [h6, h3]

/-- The texture loop's success flag, final state and created handles never
read a texture record's sampler enums. -/
theorem uploadLoop_samplerEnum_congr (g : GpuOracle)
    (ts ts' : List SModelTextureRecord)
    (h : ∀ k, sameButSamplerEnums (ts.getD k {}) (ts'.getD k {})) :
    ∀ n i s, (uploadLoop g ts i n s).1 = (uploadLoop g ts' i n s).1 ∧
      (uploadLoop g ts i n s).2.1 = (uploadLoop g ts' i n s).2.1 ∧
      (uploadLoop g ts i n s).2.2.1 = (uploadLoop g ts' i n s).2.2.1 := by
  intro n
  induction n with
  | zero => intro i s; exact ⟨rfl, rfl, rfl⟩
  | succ m ih =>
    intro i s
    have hres := uploadTextureResult_samplerEnum_congr g true i _ _ (h i)
    rw [show uploadLoop g ts i (m + 1) s =
        (match uploadTextureResult g true i (ts.getD i {}) with
         | none => (false, s, [], uploadTextureEvents g true i (ts.getD i {}))
         | some tex =>
           let c := createTexture_Internal s tex 0
           let r := uploadLoop g ts (i + 1) m c.2
           (r.1, r.2.1, c.1 :: r.2.2.1,
             uploadTextureEvents g true i (ts.getD i {}) ++ r.2.2.2)) from rfl]
    rw [show uploadLoop g ts' i (m + 1) s =
        (match uploadTextureResult g true i (ts'.getD i {}) with
         | none => (false, s, [], uploadTextureEvents g true i (ts'.getD i {}))
         | some tex =>
           let c := createTexture_Internal s tex 0
           let r := uploadLoop g ts' (i + 1) m c.2
           (r.1, r.2.1, c.1 :: r.2.2.1,
             uploadTextureEvents g true i (ts'.getD i {}) ++ r.2.2.2)) from rfl]
    rw [← hres]
    cases hcase : uploadTextureResult g true i (ts.getD i {}) with
    | none => exact ⟨rfl, rfl, rfl⟩
    | some tex =>
      have := ih (i + 1) (createTexture_Internal s tex 0).2
      dsimp only
      obtain ⟨q1, q2, q3⟩ := this
      constructor
      · exact q1
      constructor
      · exact q2
      · rw [q3]

/-- C10: sampler enum fields are never validated and unrecognized values
silently map to defaults — (i) every value other than 1/2 wraps to repeat,
every filter other than 1 maps to nearest, every mip value other than 2
maps to nearest; (ii) the parse outcome of two containers differing only
in texture sampler enums is identical (so either both load or both fail);
(iii) `loadModel` on such containers returns the same handle and the same
manager state. -/
theorem samplerEnums_unvalidated_defaulted :
    (∀ w, w ≠ 1 → w ≠ 2 → toVkWrap w = .repeatMode) ∧
    (∀ fl, fl ≠ 1 → toVkFilter fl = .nearest) ∧
    (∀ m, m ≠ 2 → toVkMip m = .nearest) ∧
    (∀ f f', SamplerEnumVariant f f' →
      loadSModelFile f = loadSModelFile f' ∧
      ∀ s path g, (loadModel s path (.ok f) g).1 = (loadModel s path (.ok f') g).1 ∧
        (loadModel s path (.ok f) g).2.1 = (loadModel s path (.ok f') g).2.1) := by
  refine ⟨?_, ?_, ?_, ?_⟩
  · intro w hw1 hw2
    unfold toVkWrap
    match w, hw1, hw2 with
    | 0, _, _ => rfl
    | 1, hw1, _ => exact absurd rfl hw1
    | 2, _, hw2 => exact absurd rfl hw2
    | n + 3, _, _ => rfl
  · intro fl hfl
    unfold toVkFilter
    match fl, hfl with
    | 0, _ => rfl
    | 1, hfl => exact absurd rfl hfl
    | n + 2, _ => rfl
  · intro m hm
    unfold toVkMip
    match m, hm with
    | 0, _ => rfl
    | 1, _ => rfl
    | 2, hm => exact absurd rfl hm
    | n + 3, _ => rfl
  · intro f f' hvar
    refine ⟨loadSModelFile_samplerEnum_congr f f' hvar, ?_⟩
    intro s path g
    rw [samplerEnumVariant_eq f f' hvar]
    cases hmiss : lookupStr s.modelPathCache path with
    | some h =>
      rw [show loadModel s path (.ok f) g = (h, addRefModel s h, [])
          from by rw [loadModel, hmiss]]
      rw [show loadModel s path (.ok { f with textures := f'.textures }) g =
          (h, addRefModel s h, []) from by rw [loadModel, hmiss]]
      exact ⟨rfl, rfl⟩
    | none =>
      have hup := uploadLoop_samplerEnum_congr g f.textures f'.textures
        (hvar.2.2.2.2.2.2.2.2.2.2.2.2.2) f.header.textureCount 0 s
      rw [loadModel, loadModel, hmiss]
      dsimp only
      unfold loadModelFresh
      dsimp only
      by_cases hpool : g.poolCreateOk = false
      · rw [if_pos hpool, if_pos hpool]
        exact ⟨rfl, rfl⟩
      rw [if_neg hpool, if_neg hpool]
      by_cases hbeg : g.beginOk = false
      · rw [if_pos hbeg, if_pos hbeg]
        exact ⟨rfl, rfl⟩
      rw [if_neg hbeg, if_neg hbeg]
      obtain ⟨q1, q2, q3⟩ := hup
      rcases hu : uploadLoop g f.textures 0 f.header.textureCount s with
        ⟨ok, s1, ths, tevs⟩
      rcases hu' : uploadLoop g f'.textures 0 f.header.textureCount s with
        ⟨ok', s1', ths', tevs'⟩
      rw [hu, hu'] at q1 q2 q3
      dsimp only at q1 q2 q3
      subst q1
      subst q2
      subst q3
      by_cases hok : ok = false
      · rw [if_pos hok, if_pos hok]
        exact ⟨rfl, rfl⟩
      rw [if_neg hok, if_neg hok]
      by_cases hsubmit : g.endSubmitOk = false
      · rw [if_pos hsubmit, if_pos hsubmit]
        exact ⟨rfl, rfl⟩
      rw [if_neg hsubmit, if_neg hsubmit]
      exact ⟨rfl, rfl⟩

theorem samplerEnums_unvalidated_defaulted_witness :
    toVkWrap 7 = .repeatMode :=
  samplerEnums_unvalidated_defaulted.1 7 (by decide) (by decide)

-- ------------------------------------------------------------
-- C4: exactly one submit-and-wait per successful load
-- ------------------------------------------------------------

theorem countSubmits_append (a b : List Event) :
    countSubmits (a ++ b) = countSubmits a + countSubmits b :=
  List.countP_append _ _ _

/-- A texture upload records commands and creates objects but never
submits. -/
theorem countSubmits_uploadTextureEvents (g : GpuOracle) (b : Bool) (i : Nat)
    (t : SModelTextureRecord) : countSubmits (uploadTextureEvents g b i t) = 0 := by
  unfold uploadTextureEvents
  by_cases h0 : t.imageDataSize = 0
  · rw [if_pos h0]
    rfl
  rw [if_neg h0]
  cases g.decode i with
  | none => rfl
  | some p =>
    obtain ⟨w, hh⟩ := p
    dsimp only
    split_ifs <;> rfl

theorem countSubmits_uploadLoop (g : GpuOracle)
    (ts : List SModelTextureRecord) :
    ∀ n i s, countSubmits (uploadLoop g ts i n s).2.2.2 = 0 := by
  intro n
  induction n with
  | zero => intro i s; rfl
  | succ m ih =>
    intro i s
    rw [show uploadLoop g ts i (m + 1) s =
        (match uploadTextureResult g true i (ts.getD i {}) with
         | none => (false, s, [], uploadTextureEvents g true i (ts.getD i {}))
         | some tex =>
           let c := createTexture_Internal s tex 0
           let r := uploadLoop g ts (i + 1) m c.2
           (r.1, r.2.1, c.1 :: r.2.2.1,
             uploadTextureEvents g true i (ts.getD i {}) ++ r.2.2.2)) from rfl]
    cases hres : uploadTextureResult g true i (ts.getD i {}) with
    | none =>
      exact countSubmits_uploadTextureEvents g true i (ts.getD i {})
    | some tex =>
      dsimp only
      rw [countSubmits_append, countSubmits_uploadTextureEvents]
      have := ih (i + 1) (createTexture_Internal s tex 0).2
      simpa using this

theorem countSubmits_createMesh (s : AMState) (d : MeshData) (p : String)
    (r : Nat) (poolOk uploadOk : Bool) :
    countSubmits (createMeshFromData_Internal s d p r poolOk uploadOk).2.2 = 0 := by
  unfold createMeshFromData_Internal
  split_ifs <;> rfl

/-- Mesh-buffer uploads submit on their own per-mesh transient pool, never
on the texture upload transaction. -/
theorem countSubmits_meshLoop (g : GpuOracle) (ms : List SModelMeshRecord)
    (path : String) :
    ∀ n i s, countSubmits (meshLoop g ms path i n s).2.2 = 0 := by
  intro n
  induction n with
  | zero => intro i s; rfl
  | succ m ih =>
    intro i s
    rw [show meshLoop g ms path i (m + 1) s =
        (let mr := ms.getD i {}
         let md : MeshData :=
           { vertexCount := mr.vertexCount, indexCount := mr.indexCount,
             vertexStride := mr.vertexStride,
             indexFormat := if mr.indexType = 0 then 0 else 1 }
         let c := createMeshFromData_Internal s md
             (path ++ "#mesh" ++ toString i) 0 (g.meshPoolOk i) (g.meshUploadOk i)
         let r := meshLoop g ms path (i + 1) m c.2.1
         (r.1, c.1 :: r.2.1, c.2.2 ++ r.2.2)) from rfl]
    dsimp only
    rw [countSubmits_append]
    have h1 := countSubmits_createMesh s
        { vertexCount := (ms.getD i {}).vertexCount,
          indexCount := (ms.getD i {}).indexCount,
          vertexStride := (ms.getD i {}).vertexStride,
          indexFormat := if (ms.getD i {}).indexType = 0 then 0 else 1 }
        (path ++ "#mesh" ++ toString i) 0 (g.meshPoolOk i) (g.meshUploadOk i)
    have h2 := ih (i + 1) (createMeshFromData_Internal s
        { vertexCount := (ms.getD i {}).vertexCount,
          indexCount := (ms.getD i {}).indexCount,
          vertexStride := (ms.getD i {}).vertexStride,
          indexFormat := if (ms.getD i {}).indexType = 0 then 0 else 1 }
        (path ++ "#mesh" ++ toString i) 0 (g.meshPoolOk i) (g.meshUploadOk i)).2.1
    omega

theorem loadModel_miss (s : AMState) (path : String)
    (parsed : Except String SModelFile) (g : GpuOracle)
    (hmiss : lookupStr s.modelPathCache path = none) :
    loadModel s path parsed g = loadModelFresh s path parsed g := by
  rw [loadModel, hmiss]

theorem loadModel_hit (s : AMState) (path : String)
    (parsed : Except String SModelFile) (g : GpuOracle) (h : Handle)
    (hhit : lookupStr s.modelPathCache path = some h) :
    loadModel s path parsed g = (h, addRefModel s h, []) := by
  rw [loadModel, hhit]

/-- A fresh load that returns a valid handle took the success path: the
parse succeeded, pool creation and transaction begin succeeded, the
texture loop completed, and the tail ran from the loop's results. -/
theorem loadModelFresh_inv (s : AMState) (path : String)
    (parsed : Except String SModelFile) (g : GpuOracle)
    (hv : (loadModelFresh s path parsed g).1.isValid = true) :
    ∃ view s1 ths tevs, parsed = .ok view ∧ g.endSubmitOk = true ∧
      uploadLoop g view.textures 0 view.header.textureCount s =
        (true, s1, ths, tevs) ∧
      loadModelFresh s path parsed g = loadModelSuccess s1 ths tevs view path g := by
  cases parsed with
  | error e =>
    exact absurd hv (by simp [loadModelFresh, invalidHandle, Handle.isValid])
  | ok view =>
    rw [loadModelFresh] at hv ⊢
    by_cases hpool : g.poolCreateOk = false
    · rw [if_pos hpool] at hv
      exact absurd hv (by simp [invalidHandle, Handle.isValid])
    rw [if_neg hpool] at hv ⊢
    by_cases hbeg : g.beginOk = false
    · rw [if_pos hbeg] at hv
      exact absurd hv (by simp [invalidHandle, Handle.isValid])
    rw [if_neg hbeg] at hv ⊢
    rcases hu : uploadLoop g view.textures 0 view.header.textureCount s with
      ⟨ok, s1, ths, tevs⟩
    rw [hu] at hv
    dsimp only at hv ⊢
    by_cases hok : ok = false
    · rw [if_pos hok] at hv
      exact absurd hv (by simp [invalidHandle, Handle.isValid])
    rw [if_neg hok] at hv ⊢
    by_cases hsub : g.endSubmitOk = false
    · rw [if_pos hsub] at hv
      exact absurd hv (by simp [invalidHandle, Handle.isValid])
    rw [if_neg hsub] at hv ⊢
    have hok' : ok = true := by
      cases ok
      · exact absurd rfl hok
      · rfl
    subst hok'
    exact ⟨view, s1, ths, tevs, rfl, by simpa using hsub, hu, rfl⟩

/-- C4: a successful cache-miss `loadModel` performs exactly one
`EndSubmitAndWait` on its upload transaction, however many texture records
(N ≥ 0) it uploaded; and each individual texture upload only records
commands / creates objects, never submitting. -/
theorem single_submit_per_successful_load (s : AMState) (path : String)
    (parsed : Except String SModelFile) (g : GpuOracle)
    (hmiss : lookupStr s.modelPathCache path = none)
    (hv : (loadModel s path parsed g).1.isValid = true) :
    countSubmits (loadModel s path parsed g).2.2 = 1 ∧
    ∀ (g' : GpuOracle) (b : Bool) (i : Nat) (t : SModelTextureRecord),
      countSubmits (uploadTextureEvents g' b i t) = 0 := by
  refine ⟨?_, fun g' b i t => countSubmits_uploadTextureEvents g' b i t⟩
  rw [loadModel_miss s path parsed g hmiss] at hv ⊢
  obtain ⟨view, s1, ths, tevs, -, -, hu, heq⟩ :=
    loadModelFresh_inv s path parsed g hv
  rw [heq]
  have htevs : countSubmits tevs = 0 := by
    have := countSubmits_uploadLoop g view.textures
      view.header.textureCount 0 s
    rw [hu] at this
    simpa using this
  have hmevs := countSubmits_meshLoop g view.meshes path
    view.header.meshCount 0
    (materialLoop ths view.materials 0 view.header.materialCount s1).1
  show countSubmits ((Event.beginCtx :: tevs ++ [Event.endSubmitAndWait]) ++
      (meshLoop g view.meshes path 0 view.header.meshCount
        (materialLoop ths view.materials 0
          view.header.materialCount s1).1).2.2) = 1
  rw [countSubmits_append]
  rw [show Event.beginCtx :: tevs ++ [Event.endSubmitAndWait] =
      (Event.beginCtx :: tevs) ++ [Event.endSubmitAndWait] from rfl]
  rw [countSubmits_append]
  rw [show countSubmits (Event.beginCtx :: tevs) = countSubmits tevs from by
    simp [countSubmits]]
  rw [htevs, hmevs]
  rfl

/-- C4 witnessed on a concrete successful two-texture load. -/
theorem single_submit_per_successful_load_witness :
    countSubmits (loadModel initAM "w4"
      (.ok { header := { textureCount := 2 },
             textures := [{ imageDataSize := 5 }, { imageDataSize := 6 }] })
      { decode := fun _ => some (4, 4) }).2.2 = 1 :=
  (single_submit_per_successful_load initAM "w4"
    (.ok { header := { textureCount := 2 },
           textures := [{ imageDataSize := 5 }, { imageDataSize := 6 }] })
    { decode := fun _ => some (4, 4) } rfl (by rfl)).1

-- ------------------------------------------------------------
-- C1: which stage failures abort a fresh loadModel
-- ------------------------------------------------------------

/-- The texture loop never touches the model registry, the model path
cache or the model identifier counter. -/
theorem uploadLoop_models (g : GpuOracle) (ts : List SModelTextureRecord) :
    ∀ n i s, ((uploadLoop g ts i n s).2.1).models = s.models ∧
      ((uploadLoop g ts i n s).2.1).modelPathCache = s.modelPathCache ∧
      ((uploadLoop g ts i n s).2.1).nextModelID = s.nextModelID := by
  intro n
  induction n with
  | zero => intro i s; exact ⟨rfl, rfl, rfl⟩
  | succ m ih =>
    intro i s
    rw [show uploadLoop g ts i (m + 1) s =
        (match uploadTextureResult g true i (ts.getD i {}) with
         | none => (false, s, [], uploadTextureEvents g true i (ts.getD i {}))
         | some tex =>
           let c := createTexture_Internal s tex 0
           let r := uploadLoop g ts (i + 1) m c.2
           (r.1, r.2.1, c.1 :: r.2.2.1,
             uploadTextureEvents g true i (ts.getD i {}) ++ r.2.2.2)) from rfl]
    cases uploadTextureResult g true i (ts.getD i {}) with
    | none => exact ⟨rfl, rfl, rfl⟩
    | some tex =>
      dsimp only
      exact ih (i + 1) (createTexture_Internal s tex 0).2

/-- Any failing texture upload aborts the loop. -/
theorem uploadLoop_fails_of_exists (g : GpuOracle)
    (ts : List SModelTextureRecord) :
    ∀ n i s, (∃ k, k < n ∧
        uploadTextureResult g true (i + k) (ts.getD (i + k) {}) = none) →
      (uploadLoop g ts i n s).1 = false := by
  intro n
  induction n with
  | zero =>
    rintro i s ⟨k, hk, -⟩
    omega
  | succ m ih =>
    rintro i s ⟨k, hk, hfail⟩
    rw [show uploadLoop g ts i (m + 1) s =
        (match uploadTextureResult g true i (ts.getD i {}) with
         | none => (false, s, [], uploadTextureEvents g true i (ts.getD i {}))
         | some tex =>
           let c := createTexture_Internal s tex 0
           let r := uploadLoop g ts (i + 1) m c.2
           (r.1, r.2.1, c.1 :: r.2.2.1,
             uploadTextureEvents g true i (ts.getD i {}) ++ r.2.2.2)) from rfl]
    cases hres : uploadTextureResult g true i (ts.getD i {}) with
    | none => rfl
    | some tex =>
      dsimp only
      apply ih (i + 1) (createTexture_Internal s tex 0).2
      match k, hk, hfail with
      | 0, _, hfail =>
        rw [Nat.add_zero] at hfail
        rw [hfail] at hres
        exact absurd hres (by simp)
      | k' + 1, hk, hfail =>
        exact ⟨k', by omega, by
          simpa [Nat.add_comm, Nat.add_left_comm, Nat.add_assoc] using hfail⟩

/-- The handle a completed fresh load returns always carries generation
stamp 1 (it is the result of `createModel_Internal`). -/
theorem loadModelSuccess_generation (s1 : AMState) (ths : List Handle)
    (tevs : List Event) (view : SModelFile) (path : String) (g : GpuOracle) :
    (loadModelSuccess s1 ths tevs view path g).1.generation = 1 := rfl

/-- C1 amended: a fresh `loadModel` aborts with the invalid handle on a
container-parse failure, a pool-creation or transaction-begin failure, any
texture decode/upload failure, or a submit failure — and whenever it
returns the invalid handle nothing was added to the model registry, the
model path cache or the model identifier counter (textures already
registered at reference count zero may remain).  A mesh-buffer upload
failure, however, is **not** such a stage: it does not abort the load (see
the counterexample). -/
theorem failed_load_registers_no_model (s : AMState) (path : String)
    (g : GpuOracle) (e : String) (view : SModelFile)
    (hmiss : lookupStr s.modelPathCache path = none) :
    (loadModel s path (.error e) g = (invalidHandle, s, [])) ∧
    ((g.poolCreateOk = false ∨ g.beginOk = false ∨
        (uploadLoop g view.textures 0 view.header.textureCount s).1 = false ∨
        g.endSubmitOk = false) →
      (loadModel s path (.ok view) g).1 = invalidHandle) ∧
    ((∃ i, i < view.header.textureCount ∧
        uploadTextureResult g true i (view.textures.getD i {}) = none) →
      (uploadLoop g view.textures 0 view.header.textureCount s).1 = false) ∧
    (∀ parsed, (loadModel s path parsed g).1 = invalidHandle →
      (loadModel s path parsed g).2.1.models = s.models ∧
      (loadModel s path parsed g).2.1.modelPathCache = s.modelPathCache ∧
      (loadModel s path parsed g).2.1.nextModelID = s.nextModelID) := by
  refine ⟨?_, ?_, ?_, ?_⟩
  · rw [loadModel_miss s path _ g hmiss]
    rfl
  · intro hfail
    rw [loadModel_miss s path _ g hmiss]
    rw [loadModelFresh]
    by_cases hpool : g.poolCreateOk = false
    · rw [if_pos hpool]
    rw [if_neg hpool]
    by_cases hbeg : g.beginOk = false
    · rw [if_pos hbeg]
    rw [if_neg hbeg]
    by_cases hloop : (uploadLoop g view.textures 0 view.header.textureCount s).1
        = false
    · rw [if_pos hloop]
    rw [if_neg hloop]
    have hsub : g.endSubmitOk = false := by tauto
    rw [if_pos hsub]
  · rintro ⟨i, hi, hfail⟩
    exact uploadLoop_fails_of_exists g view.textures view.header.textureCount 0 s
      ⟨i, by simpa using hi, by simpa using hfail⟩
  · intro parsed hinv
    rw [loadModel_miss s path parsed g hmiss] at hinv ⊢
    cases parsed with
    | error e' => exact ⟨rfl, rfl, rfl⟩
    | ok v =>
      rw [loadModelFresh] at hinv ⊢
      by_cases hpool : g.poolCreateOk = false
      · rw [if_pos hpool]
        exact ⟨rfl, rfl, rfl⟩
      rw [if_neg hpool] at hinv ⊢
      by_cases hbeg : g.beginOk = false
      · rw [if_pos hbeg]
        exact ⟨rfl, rfl, rfl⟩
      rw [if_neg hbeg] at hinv ⊢
      by_cases hloop : (uploadLoop g v.textures 0 v.header.textureCount s).1
          = false
      · rw [if_pos hloop]
        exact uploadLoop_models g v.textures v.header.textureCount 0 s
      rw [if_neg hloop] at hinv ⊢
      by_cases hsub : g.endSubmitOk = false
      · rw [if_pos hsub]
        exact uploadLoop_models g v.textures v.header.textureCount 0 s
      rw [if_neg hsub] at hinv ⊢
      have hgen := loadModelSuccess_generation
        ((uploadLoop g v.textures 0 v.header.textureCount s).2.1)
        ((uploadLoop g v.textures 0 v.header.textureCount s).2.2.1)
        ((uploadLoop g v.textures 0 v.header.textureCount s).2.2.2) v path g
      rw [hinv] at hgen
      exact absurd hgen (by simp [invalidHandle])

theorem failed_load_registers_no_model_witness :
    loadModel initAM "w1" (.error "io failure") {} = (invalidHandle, initAM, []) :=
  (failed_load_registers_no_model initAM "w1" {} "io failure" {} rfl).1

/-- A one-mesh, one-material, one-primitive container (no textures): the
mesh-upload stage is made to fail. -/
def c1CounterFile : SModelFile :=
  { header := { magic := smodMagic, versionMajor := 1, meshCount := 1,
                primitiveCount := 1, materialCount := 1 }
    meshes := [{ vertexCount := 3, vertexStride := 32, vertexDataSize := 96 }]
    primitives := [{}]
    materials := [{}]
    fileSize := 400 }

/-- Every GPU call succeeds except the mesh buffer upload. -/
def c1FailOracle : GpuOracle := { meshUploadOk := fun _ => false }

/-- C1 is false as stated for the mesh-buffer-upload stage: with every
mesh upload failing, the fresh load still returns a *valid* handle,
registers the model (holding a primitive whose mesh handle is invalid),
and caches the path — the mesh registry stays empty. -/
theorem mesh_upload_failure_does_not_abort :
    (loadModel initAM "q" (.ok c1CounterFile) c1FailOracle).1.isValid = true ∧
    (lookupReg (loadModel initAM "q" (.ok c1CounterFile) c1FailOracle).2.1.models
        1).isSome = true ∧
    lookupStr (loadModel initAM "q" (.ok c1CounterFile) c1FailOracle).2.1.modelPathCache
        "q" = some ⟨1, 1⟩ ∧
    (loadModel initAM "q" (.ok c1CounterFile) c1FailOracle).2.1.meshes = [] := by
  refine ⟨by rfl, by rfl, by rfl, by rfl⟩

-- ------------------------------------------------------------
-- C9: loading the same path twice
-- ------------------------------------------------------------

/-- The reference count the model registry holds for a resolving handle. -/
def modelRefCount (s : AMState) (h : Handle) : Option Nat :=
  match lookupReg s.models h.id with
  | none => none
  | some e => if e.generation = h.generation then some e.refCount else none

theorem addRefMaterialTextures_models (s : AMState) (mh : Handle) :
    (addRefMaterialTextures s mh).models = s.models ∧
    (addRefMaterialTextures s mh).modelPathCache = s.modelPathCache ∧
    (addRefMaterialTextures s mh).nextModelID = s.nextModelID := by
  unfold addRefMaterialTextures
  cases getMaterial s mh with
  | none => exact ⟨rfl, rfl, rfl⟩
  | some cm =>
    dsimp only
    split_ifs <;> exact ⟨rfl, rfl, rfl⟩

/-- The material loop never touches the model registry, cache or counter. -/
theorem materialLoop_models (ths : List Handle)
    (mats : List SModelMaterialRecord) :
    ∀ n i s, ((materialLoop ths mats i n s).1).models = s.models ∧
      ((materialLoop ths mats i n s).1).modelPathCache = s.modelPathCache ∧
      ((materialLoop ths mats i n s).1).nextModelID = s.nextModelID := by
  intro n
  induction n with
  | zero => intro i s; exact ⟨rfl, rfl, rfl⟩
  | succ m ih =>
    intro i s
    rw [show materialLoop ths mats i (m + 1) s =
        (let c := createMaterial_Internal s
            (buildMaterial ths (mats.getD i {})) 0
         let s'' := addRefMaterialTextures c.2 c.1
         let r := materialLoop ths mats (i + 1) m s''
         (r.1, c.1 :: r.2)) from rfl]
    dsimp only
    have hadd := addRefMaterialTextures_models
      (createMaterial_Internal s (buildMaterial ths (mats.getD i {})) 0).2
      (createMaterial_Internal s (buildMaterial ths (mats.getD i {})) 0).1
    have hrec := ih (i + 1) (addRefMaterialTextures
      (createMaterial_Internal s (buildMaterial ths (mats.getD i {})) 0).2
      (createMaterial_Internal s (buildMaterial ths (mats.getD i {})) 0).1)
    refine ⟨?_, ?_, ?_⟩
    · rw [hrec.1, hadd.1]
      rfl
    · rw [hrec.2.1, hadd.2.1]
      rfl
    · rw [hrec.2.2, hadd.2.2]
      rfl

theorem createMeshFromData_models (s : AMState) (d : MeshData) (p : String)
    (r : Nat) (poolOk uploadOk : Bool) :
    ((createMeshFromData_Internal s d p r poolOk uploadOk).2.1).models = s.models ∧
    ((createMeshFromData_Internal s d p r poolOk uploadOk).2.1).modelPathCache
      = s.modelPathCache ∧
    ((createMeshFromData_Internal s d p r poolOk uploadOk).2.1).nextModelID
      = s.nextModelID := by
  unfold createMeshFromData_Internal
  split_ifs <;> exact ⟨rfl, rfl, rfl⟩

/-- The mesh loop never touches the model registry, cache or counter. -/
theorem meshLoop_models (g : GpuOracle) (ms : List SModelMeshRecord)
    (path : String) :
    ∀ n i s, ((meshLoop g ms path i n s).1).models = s.models ∧
      ((meshLoop g ms path i n s).1).modelPathCache = s.modelPathCache ∧
      ((meshLoop g ms path i n s).1).nextModelID = s.nextModelID := by
  intro n
  induction n with
  | zero => intro i s; exact ⟨rfl, rfl, rfl⟩
  | succ m ih =>
    intro i s
    rw [show meshLoop g ms path i (m + 1) s =
        (let mr := ms.getD i {}
         let md : MeshData :=
           { vertexCount := mr.vertexCount, indexCount := mr.indexCount,
             vertexStride := mr.vertexStride,
             indexFormat := if mr.indexType = 0 then 0 else 1 }
         let c := createMeshFromData_Internal s md
             (path ++ "#mesh" ++ toString i) 0 (g.meshPoolOk i) (g.meshUploadOk i)
         let r := meshLoop g ms path (i + 1) m c.2.1
         (r.1, c.1 :: r.2.1, c.2.2 ++ r.2.2)) from rfl]
    dsimp only
    have hcm := createMeshFromData_models s
        { vertexCount := (ms.getD i {}).vertexCount,
          indexCount := (ms.getD i {}).indexCount,
          vertexStride := (ms.getD i {}).vertexStride,
          indexFormat := if (ms.getD i {}).indexType = 0 then 0 else 1 }
        (path ++ "#mesh" ++ toString i) 0 (g.meshPoolOk i) (g.meshUploadOk i)
    have hrec := ih (i + 1) (createMeshFromData_Internal s
        { vertexCount := (ms.getD i {}).vertexCount,
          indexCount := (ms.getD i {}).indexCount,
          vertexStride := (ms.getD i {}).vertexStride,
          indexFormat := if (ms.getD i {}).indexType = 0 then 0 else 1 }
        (path ++ "#mesh" ++ toString i) 0 (g.meshPoolOk i) (g.meshUploadOk i)).2.1
    refine ⟨?_, ?_, ?_⟩
    · rw [hrec.1, hcm.1]
    · rw [hrec.2.1, hcm.2.1]
    · rw [hrec.2.2, hcm.2.2]

/-- The primitive loop never touches the model registry, cache or
counter. -/
theorem primLoop_models (prims : List SModelPrimitiveRecord)
    (mshs mths : List Handle) :
    ∀ n i s, ((primLoop prims mshs mths i n s).1).models = s.models ∧
      ((primLoop prims mshs mths i n s).1).modelPathCache = s.modelPathCache ∧
      ((primLoop prims mshs mths i n s).1).nextModelID = s.nextModelID := by
  intro n
  induction n with
  | zero => intro i s; exact ⟨rfl, rfl, rfl⟩
  | succ m ih =>
    intro i s
    rw [show primLoop prims mshs mths i (m + 1) s =
        (let p := prims.getD i {}
         let prim : ModelPrimitive :=
           { mesh := mshs.getD p.meshIndex invalidHandle
             material := mths.getD p.materialIndex invalidHandle
             firstIndex := p.firstIndex, indexCount := p.indexCount,
             vertexOffset := p.vertexOffset }
         let s1 := if prim.mesh.isValid then addRefMesh s prim.mesh else s
         let meshDep : List Handle :=
           if prim.mesh.isValid then [prim.mesh] else []
         let s2 := if prim.material.isValid then addRefMaterial s1 prim.material
           else s1
         let matDep : List Handle :=
           if prim.material.isValid then [prim.material] else []
         let r := primLoop prims mshs mths (i + 1) m s2
         (r.1, prim :: r.2.1, meshDep ++ r.2.2.1, matDep ++ r.2.2.2))
      from rfl]
    dsimp only
    split_ifs <;> exact ih (i + 1) _

theorem lookupReg_append_fresh (A : Registry α) (k : Nat) (e : RegEntry α)
    (hk : ∀ kv ∈ A, kv.1 ≠ k) : lookupReg (A ++ [(k, e)]) k = some e := by
  induction A with
  | nil => simp [lookupReg]
  | cons kv rest ih =>
    obtain ⟨k', e'⟩ := kv
    have hne : k' ≠ k := hk (k', e') (by simp)
    simp only [List.cons_append, lookupReg, if_neg hne]
    exact ih (fun kv hkv => hk kv (by simp [hkv]))

theorem lookupStr_append_fresh (c : List (String × Handle)) (p : String)
    (h : Handle) (hp : lookupStr c p = none) :
    lookupStr (c ++ [(p, h)]) p = some h := by
  induction c with
  | nil => simp [lookupStr]
  | cons kv rest ih =>
    obtain ⟨k', h'⟩ := kv
    by_cases hk : k' = p
    · rw [lookupStr, if_pos hk] at hp
      exact absurd hp (by simp)
    · rw [lookupStr, if_neg hk] at hp
      simp only [List.cons_append, lookupStr, if_neg hk]
      exact ih hp

/-- What a completed fresh load leaves behind: the returned handle is
`⟨nextModelID, 1⟩`, the path cache now resolves the path to it, and its
registry entry holds reference count 1. -/
theorem loadModelSuccess_facts (s1 : AMState) (ths : List Handle)
    (tevs : List Event) (view : SModelFile) (path : String) (g : GpuOracle)
    (hkeys : ∀ kv ∈ s1.models, kv.1 < s1.nextModelID)
    (hmiss1 : lookupStr s1.modelPathCache path = none) :
    (loadModelSuccess s1 ths tevs view path g).1 = ⟨s1.nextModelID, 1⟩ ∧
    lookupStr (loadModelSuccess s1 ths tevs view path g).2.1.modelPathCache path
      = some ⟨s1.nextModelID, 1⟩ ∧
    modelRefCount (loadModelSuccess s1 ths tevs view path g).2.1
      ⟨s1.nextModelID, 1⟩ = some 1 := by
  have hmat := materialLoop_models ths view.materials
    view.header.materialCount 0 s1
  have hmesh := meshLoop_models g view.meshes path view.header.meshCount 0
    (materialLoop ths view.materials 0 view.header.materialCount s1).1
  have hprim := primLoop_models view.primitives
    (meshLoop g view.meshes path 0 view.header.meshCount
      (materialLoop ths view.materials 0 view.header.materialCount s1).1).2.1
    (materialLoop ths view.materials 0 view.header.materialCount s1).2
    view.header.primitiveCount 0
    (meshLoop g view.meshes path 0 view.header.meshCount
      (materialLoop ths view.materials 0 view.header.materialCount s1).1).1
  set pre := (primLoop view.primitives
    (meshLoop g view.meshes path 0 view.header.meshCount
      (materialLoop ths view.materials 0 view.header.materialCount s1).1).2.1
    (materialLoop ths view.materials 0 view.header.materialCount s1).2 0
    view.header.primitiveCount
    (meshLoop g view.meshes path 0 view.header.meshCount
      (materialLoop ths view.materials 0 view.header.materialCount s1).1).1)
    with hpre
  have hpreModels : pre.1.models = s1.models := by
    rw [hprim.1, hmesh.1, hmat.1]
  have hpreCache : pre.1.modelPathCache = s1.modelPathCache := by
    rw [hprim.2.1, hmesh.2.1, hmat.2.1]
  have hpreNext : pre.1.nextModelID = s1.nextModelID := by
    rw [hprim.2.2, hmesh.2.2, hmat.2.2]
  refine ⟨?_, ?_, ?_⟩
  · show (⟨pre.1.nextModelID, 1⟩ : Handle) = ⟨s1.nextModelID, 1⟩
    rw [hpreNext]
  · show lookupStr (emplaceStr pre.1.modelPathCache path
        ⟨pre.1.nextModelID, 1⟩) path = some ⟨s1.nextModelID, 1⟩
    rw [hpreNext, hpreCache]
    unfold emplaceStr
    rw [hmiss1]
    exact lookupStr_append_fresh s1.modelPathCache path _ hmiss1
  · show modelRefCount
      { (createModel_Internal pre.1 { primitives := pre.2.1 } path 1).2 with
        models := updFirst
          (createModel_Internal pre.1 { primitives := pre.2.1 } path 1).2.models
          (createModel_Internal pre.1 { primitives := pre.2.1 } path 1).1.id
          (fun e => { e with meshDeps := pre.2.2.1, materialDeps := pre.2.2.2 })
        modelPathCache := emplaceStr
          (createModel_Internal pre.1 { primitives := pre.2.1 } path 1).2.modelPathCache
          path (createModel_Internal pre.1 { primitives := pre.2.1 } path 1).1 }
      ⟨s1.nextModelID, 1⟩ = some 1
    unfold modelRefCount
    show (match lookupReg (updFirst
        (pre.1.models ++ [(pre.1.nextModelID,
          { asset := { primitives := pre.2.1 }, generation := 1, refCount := 1,
            path := path })])
        pre.1.nextModelID
        (fun e => { e with meshDeps := pre.2.2.1, materialDeps := pre.2.2.2 }))
        s1.nextModelID with
      | none => none
      | some e => if e.generation = 1 then some e.refCount else none) = some 1
    rw [hpreModels, hpreNext]
    rw [lookupReg_updFirst_self]
    rw [lookupReg_append_fresh _ _ _
      (fun kv hkv => by
        have := hkeys kv hkv
        omega)]
    rfl

/-- `addRef` on a handle the model registry resolves increments exactly
that entry's count. -/
theorem modelRefCount_addRef_self (s : AMState) (h : Handle) (rc : Nat)
    (hrc : modelRefCount s h = some rc) :
    modelRefCount (addRefModel s h) h = some (rc + 1) := by
  unfold modelRefCount at hrc
  unfold modelRefCount addRefModel regAddRef
  cases hl : lookupReg s.models h.id with
  | none =>
    rw [hl] at hrc
    exact absurd hrc (by simp)
  | some e =>
    rw [hl] at hrc
    dsimp only at hrc
    by_cases hg : e.generation = h.generation
    · rw [if_pos hg] at hrc
      dsimp only
      rw [if_pos hg]
      rw [lookupReg_updFirst_self, hl]
      show (if ({ e with refCount := e.refCount + 1 } :
          RegEntry ModelAsset).generation = h.generation then
          some ({ e with refCount := e.refCount + 1 } :
            RegEntry ModelAsset).refCount else none) = some (rc + 1)
      rw [if_pos (show ({ e with refCount := e.refCount + 1 } :
          RegEntry ModelAsset).generation = h.generation from hg)]
      have he : e.refCount = rc := by
        simpa using hrc
      show some (e.refCount + 1) = some (rc + 1)
      rw [he]
    · rw [if_neg hg] at hrc
      exact absurd hrc (by simp)

/-- C9: after a fresh `loadModel(path)` succeeds, a second
`loadModel(path)` with no intervening release or collection hits the path
cache: it returns the same identifier and generation, and the model
entry's reference count is exactly one greater than after the first
call. -/
theorem second_load_same_handle_higher_refcount (s : AMState) (path : String)
    (parsed parsed' : Except String SModelFile) (g g' : GpuOracle)
    (hmiss : lookupStr s.modelPathCache path = none)
    (hkeys : ∀ kv ∈ s.models, kv.1 < s.nextModelID)
    (hv : (loadModel s path parsed g).1.isValid = true) :
    (loadModel (loadModel s path parsed g).2.1 path parsed' g').1 =
      (loadModel s path parsed g).1 ∧
    modelRefCount
        (loadModel (loadModel s path parsed g).2.1 path parsed' g').2.1
        (loadModel s path parsed g).1 =
      some 2 ∧
    modelRefCount (loadModel s path parsed g).2.1 (loadModel s path parsed g).1
      = some 1 := by
  rw [loadModel_miss s path parsed g hmiss] at hv ⊢
  obtain ⟨view, s1, ths, tevs, hp, -, hu, heq⟩ :=
    loadModelFresh_inv s path parsed g hv
  rw [heq]
  have hups := uploadLoop_models g view.textures view.header.textureCount 0 s
  rw [hu] at hups
  dsimp only at hups
  have hkeys1 : ∀ kv ∈ s1.models, kv.1 < s1.nextModelID := by
    intro kv hkv
    rw [hups.1] at hkv
    rw [hups.2.2]
    exact hkeys kv hkv
  have hmiss1 : lookupStr s1.modelPathCache path = none := by
    rw [hups.2.1]
    exact hmiss
  obtain ⟨hhandle, hcache, hrc⟩ :=
    loadModelSuccess_facts s1 ths tevs view path g hkeys1 hmiss1
  rw [hhandle]
  rw [loadModel_hit _ path parsed' g' _ hcache]
  refine ⟨rfl, ?_, hrc⟩
  show modelRefCount (addRefModel
    (loadModelSuccess s1 ths tevs view path g).2.1 ⟨s1.nextModelID, 1⟩)
    ⟨s1.nextModelID, 1⟩ = some 2
  exact modelRefCount_addRef_self _ _ 1 hrc

theorem second_load_same_handle_higher_refcount_witness :
    (loadModel (loadModel initAM "w9"
        (.ok { header := { textureCount := 1 },
               textures := [{ imageDataSize := 3 }] })
        { decode := fun _ => some (2, 2) }).2.1 "w9"
      (.error "unused") {}).1 =
    (loadModel initAM "w9"
      (.ok { header := { textureCount := 1 },
             textures := [{ imageDataSize := 3 }] })
      { decode := fun _ => some (2, 2) }).1 :=
  (second_load_same_handle_higher_refcount initAM "w9"
    (.ok { header := { textureCount := 1 },
           textures := [{ imageDataSize := 3 }] })
    (.error "unused")
    { decode := fun _ => some (2, 2) } {} rfl (by simp [initAM])
    (by rfl)).1

-- ------------------------------------------------------------
-- C3: one-pass dependency-cascade reclamation
-- ------------------------------------------------------------

/-- A container with exactly one mesh, one primitive (referencing mesh 0
and material 0), one material and one texture. -/
def c3File (mr : SModelMeshRecord) (tex : SModelTextureRecord)
    (mat : SModelMaterialRecord) (pr : SModelPrimitiveRecord) : SModelFile :=
  { header := { magic := smodMagic, versionMajor := 1, meshCount := 1,
                primitiveCount := 1, materialCount := 1, textureCount := 1 }
    meshes := [mr], primitives := [pr], materials := [mat], textures := [tex]
    fileSize := 400 }

/-- Every GPU collaborator call succeeds; decode yields a 4x4 image. -/
def happyOracle : GpuOracle := { decode := fun _ => some (4, 4) }

/-- The registry entries `loadModel` leaves behind for `c3File` (each at
reference count 1: one reference held by its dependent). -/
def c3MeshEntry (vc ic : Nat) : RegEntry MeshAsset :=
  { asset := { vertexCount := vc, indexCount := ic }, generation := 1,
    refCount := 1, path := "p#mesh0" }

def c3TexEntry (colorSpace : Nat) : RegEntry TextureAsset :=
  { asset := { width := 4, height := 4, mipLevels := 3,
               srgb := decide (colorSpace = 1) },
    generation := 1, refCount := 1 }

def c3MatEntry (am ds tc1 tc2 tc3 tc4 tc5 : Nat) : RegEntry MaterialAsset :=
  { asset := { alphaMode := am, doubleSided := ds,
               baseColorTexture := ⟨1, 1⟩, normalTexture := ⟨0, 0⟩,
               metallicRoughnessTexture := ⟨0, 0⟩, occlusionTexture := ⟨0, 0⟩,
               emissiveTexture := ⟨0, 0⟩, baseColorTexCoord := tc1,
               normalTexCoord := tc2, metallicRoughnessTexCoord := tc3,
               occlusionTexCoord := tc4, emissiveTexCoord := tc5 },
    generation := 1, refCount := 1, textureDeps := [⟨1, 1⟩] }

def c3Prim (fi ic : Nat) (vo : Int) : ModelPrimitive :=
  { mesh := ⟨1, 1⟩, material := ⟨1, 1⟩, firstIndex := fi, indexCount := ic,
    vertexOffset := vo }

def c3ModelEntry (fi ic : Nat) (vo : Int) : RegEntry ModelAsset :=
  { asset := { primitives := [c3Prim fi ic vo] },
    generation := 1, refCount := 1, path := "p", meshDeps := [⟨1, 1⟩],
    materialDeps := [⟨1, 1⟩] }

/-- The full manager state after loading `c3File` from a fresh manager. -/
def c3Loaded (vc ic colorSpace am ds tc1 tc2 tc3 tc4 tc5 fi pic : Nat)
    (vo : Int) : AMState :=
  { meshes := [(1, c3MeshEntry vc ic)]
    textures := [(1, c3TexEntry colorSpace)]
    materials := [(1, c3MatEntry am ds tc1 tc2 tc3 tc4 tc5)]
    models := [(1, c3ModelEntry fi pic vo)]
    nextMeshID := 2, nextTextureID := 2, nextMaterialID := 2, nextModelID := 2
    meshPathCache := [], modelPathCache := [("p", ⟨1, 1⟩)] }

set_option maxHeartbeats 1000000 in
/-- C3: loading a container with exactly one primitive referencing one
mesh, one material and one texture (the material referencing that
texture), then releasing the returned model handle once and running one
`garbageCollect`, leaves `getModel`, `getMaterial`, `getMesh` and
`getTexture` all absent for the four created handles: the dependency
cascade completes in a single pass because the sweep order is models,
materials, meshes, textures. -/
theorem cascade_collect_single_primitive (mr : SModelMeshRecord)
    (tex : SModelTextureRecord) (mat : SModelMaterialRecord)
    (pr : SModelPrimitiveRecord)
    (htex : tex.imageDataSize ≠ 0)
    (hbc : mat.baseColorTexture = 0) (hno : mat.normalTexture = -1)
    (hmr : mat.metallicRoughnessTexture = -1) (hoc : mat.occlusionTexture = -1)
    (hem : mat.emissiveTexture = -1)
    (hpm : pr.meshIndex = 0) (hpmat : pr.materialIndex = 0) :
    (loadModel initAM "p" (.ok (c3File mr tex mat pr)) happyOracle).1.isValid
      = true ∧
    getModel (garbageCollect (releaseModel
        (loadModel initAM "p" (.ok (c3File mr tex mat pr)) happyOracle).2.1
        (loadModel initAM "p" (.ok (c3File mr tex mat pr)) happyOracle).1))
      (loadModel initAM "p" (.ok (c3File mr tex mat pr)) happyOracle).1
      = none ∧
    getMaterial (garbageCollect (releaseModel
        (loadModel initAM "p" (.ok (c3File mr tex mat pr)) happyOracle).2.1
        (loadModel initAM "p" (.ok (c3File mr tex mat pr)) happyOracle).1))
      ⟨1, 1⟩ = none ∧
    getMesh (garbageCollect (releaseModel
        (loadModel initAM "p" (.ok (c3File mr tex mat pr)) happyOracle).2.1
        (loadModel initAM "p" (.ok (c3File mr tex mat pr)) happyOracle).1))
      ⟨1, 1⟩ = none ∧
    getTexture (garbageCollect (releaseModel
        (loadModel initAM "p" (.ok (c3File mr tex mat pr)) happyOracle).2.1
        (loadModel initAM "p" (.ok (c3File mr tex mat pr)) happyOracle).1))
      ⟨1, 1⟩ = none := by
  obtain ⟨m1, m2, m3, m4, m5, m6, m7, m8, m9, m10⟩ := mr
  obtain ⟨t1, t2, t3, t4, t5, t6, t7, t8, t9, t10, t11⟩ := tex
  obtain ⟨a1, a2, a3, a4, a5, a6, a7, a8, a9, a10, a11, a12, a13⟩ := mat
  obtain ⟨p1, p2, p3, p4, p5⟩ := pr
  dsimp only at htex hbc hno hmr hoc hem hpm hpmat
  subst hbc hno hmr hoc hem hpm hpmat
  obtain ⟨sz, hsz⟩ : ∃ k, t11 = k + 1 := ⟨t11 - 1, by omega⟩
  subst hsz
  have h1 : (loadModel initAM "p"
      (.ok (c3File ⟨m1, m2, m3, m4, m5, m6, m7, m8, m9, m10⟩
        ⟨t1, t2, t3, t4, t5, t6, t7, t8, t9, t10, sz + 1⟩
        ⟨a1, a2, a3, 0, -1, -1, -1, -1, a9, a10, a11, a12, a13⟩
        ⟨0, 0, p3, p4, p5⟩)) happyOracle).1 = ⟨1, 1⟩ := rfl
  have h21 : (loadModel initAM "p"
      (.ok (c3File ⟨m1, m2, m3, m4, m5, m6, m7, m8, m9, m10⟩
        ⟨t1, t2, t3, t4, t5, t6, t7, t8, t9, t10, sz + 1⟩
        ⟨a1, a2, a3, 0, -1, -1, -1, -1, a9, a10, a11, a12, a13⟩
        ⟨0, 0, p3, p4, p5⟩)) happyOracle).2.1 =
      c3Loaded m3 m4 t3 a2 a3 a9 a10 a11 a12 a13 p3 p4 p5 := rfl
  rw [h1, h21]
  exact ⟨rfl, rfl, rfl, rfl, rfl⟩

theorem cascade_collect_single_primitive_witness :
    getTexture (garbageCollect (releaseModel
        (loadModel initAM "p" (.ok (c3File
          { vertexCount := 3, vertexStride := 32, vertexDataSize := 96 }
          { imageDataSize := 10 } { baseColorTexture := 0 } {}))
          happyOracle).2.1
        (loadModel initAM "p" (.ok (c3File
          { vertexCount := 3, vertexStride := 32, vertexDataSize := 96 }
          { imageDataSize := 10 } { baseColorTexture := 0 } {}))
          happyOracle).1))
      ⟨1, 1⟩ = none :=
  (cascade_collect_single_primitive
    { vertexCount := 3, vertexStride := 32, vertexDataSize := 96 }
    { imageDataSize := 10 } { baseColorTexture := 0 } {}
    (by decide) (by decide) (by decide) (by decide) (by decide) (by decide)
    (by decide) (by decide)).2.2.2.2


-- ------------------------------------------------------------
-- C7: the registry identifier/generation invariant of reachable
-- manager states
-- ------------------------------------------------------------

/-- The per-registry invariant: every entry carries generation stamp 1
and an identifier below the registry's allocation counter, and the
identifiers are pairwise distinct. -/
def RegOK (reg : Registry α) (nextID : Nat) : Prop :=
  (∀ kv ∈ reg, (kv : Nat × RegEntry α).2.generation = 1 ∧ kv.1 < nextID) ∧
  (reg.map Prod.fst).Nodup

/-- The manager-wide invariant: all four registries satisfy `RegOK`
against their own counters. -/
def AMInv (s : AMState) : Prop :=
  RegOK s.meshes s.nextMeshID ∧ RegOK s.textures s.nextTextureID ∧
  RegOK s.materials s.nextMaterialID ∧ RegOK s.models s.nextModelID

/-- The four allocation counters never decrease. -/
def countersLE (s s' : AMState) : Prop :=
  s.nextMeshID ≤ s'.nextMeshID ∧ s.nextTextureID ≤ s'.nextTextureID ∧
  s.nextMaterialID ≤ s'.nextMaterialID ∧ s.nextModelID ≤ s'.nextModelID

/-- Monotonic allocation at the registry level: every identifier present
after an operation was either already present before it or was freshly
allocated at or above the old counter value, so an identifier that was
removed can never reappear. -/
def freshKeys (r r' : Registry α) (bound : Nat) : Prop :=
  ∀ k ∈ r'.map Prod.fst, k ∈ r.map Prod.fst ∨ bound ≤ k

/-- How one manager operation relates the state before to the state
after: counters grow monotonically and registry identifiers are never
reused. -/
def Evolves (s s' : AMState) : Prop :=
  countersLE s s' ∧
  freshKeys s.meshes s'.meshes s.nextMeshID ∧
  freshKeys s.textures s'.textures s.nextTextureID ∧
  freshKeys s.materials s'.materials s.nextMaterialID ∧
  freshKeys s.models s'.models s.nextModelID

/-- One public `AssetManager` call, with arbitrary arguments and
arbitrary collaborator results. -/
inductive Step : AMState → AMState → Prop where
  | callAddRefMesh (s : AMState) (h : Handle) : Step s (addRefMesh s h)
  | callAddRefTexture (s : AMState) (h : Handle) : Step s (addRefTexture s h)
  | callAddRefMaterial (s : AMState) (h : Handle) : Step s (addRefMaterial s h)
  | callAddRefModel (s : AMState) (h : Handle) : Step s (addRefModel s h)
  | callReleaseMesh (s : AMState) (h : Handle) : Step s (releaseMesh s h)
  | callReleaseTexture (s : AMState) (h : Handle) : Step s (releaseTexture s h)
  | callReleaseMaterial (s : AMState) (h : Handle) :
      Step s (releaseMaterial s h)
  | callReleaseModel (s : AMState) (h : Handle) : Step s (releaseModel s h)
  | callLoadMesh (s : AMState) (path : String) (parsed : Option MeshData)
      (poolOk uploadOk : Bool) :
      Step s (loadMesh s path parsed poolOk uploadOk).2.1
  | callLoadModel (s : AMState) (path : String)
      (parsed : Except String SModelFile) (g : GpuOracle) :
      Step s (loadModel s path parsed g).2.1
  | callGarbageCollect (s : AMState) : Step s (garbageCollect s)

/-- Manager states reachable from a freshly constructed manager by any
sequence of public calls. -/
inductive Reachable : AMState → Prop where
  | init : Reachable initAM
  | step {s s' : AMState} : Reachable s → Step s s' → Reachable s'

theorem mem_updFirst {reg : Registry α} {id : Nat}
    {f : RegEntry α → RegEntry α} {kv : Nat × RegEntry α}
    (hkv : kv ∈ updFirst reg id f) :
    kv ∈ reg ∨ ∃ e, (id, e) ∈ reg ∧ kv = (id, f e) := by
  induction reg with
  | nil => exact Or.inl hkv
  | cons p rest ih =>
    obtain ⟨k, e⟩ := p
    by_cases hk : k = id
    · subst hk
      simp only [updFirst, if_pos rfl] at hkv
      rcases List.mem_cons.mp hkv with h | h
      · exact Or.inr ⟨e, List.mem_cons_self _ _, h⟩
      · exact Or.inl (List.mem_cons_of_mem _ h)
    · simp only [updFirst, if_neg hk] at hkv
      rcases List.mem_cons.mp hkv with h | h
      · exact Or.inl (List.mem_cons.mpr (Or.inl h))
      · rcases ih h with h' | ⟨e', he', hkv'⟩
        · exact Or.inl (List.mem_cons_of_mem _ h')
        · exact Or.inr ⟨e', List.mem_cons_of_mem _ he', hkv'⟩

theorem updFirst_map_fst (reg : Registry α) (id : Nat)
    (f : RegEntry α → RegEntry α) :
    (updFirst reg id f).map Prod.fst = reg.map Prod.fst := by
  induction reg with
  | nil => rfl
  | cons p rest ih =>
    obtain ⟨k, e⟩ := p
    by_cases hk : k = id <;> simp [updFirst, hk, ih]

theorem regAddRef_map_fst (reg : Registry α) (h : Handle) :
    (regAddRef reg h).map Prod.fst = reg.map Prod.fst := by
  unfold regAddRef
  cases lookupReg reg h.id with
  | none => rfl
  | some e =>
    dsimp only
    split
    · exact updFirst_map_fst reg h.id _
    · rfl

theorem regRelease_map_fst (reg : Registry α) (h : Handle) :
    (regRelease reg h).map Prod.fst = reg.map Prod.fst := by
  unfold regRelease
  cases lookupReg reg h.id with
  | none => rfl
  | some e =>
    dsimp only
    split
    · exact updFirst_map_fst reg h.id _
    · rfl

theorem RegOK_updFirst {reg : Registry α} {n id : Nat}
    {f : RegEntry α → RegEntry α}
    (hf : ∀ e, (f e).generation = e.generation)
    (h : RegOK reg n) : RegOK (updFirst reg id f) n := by
  constructor
  · intro kv hkv
    rcases mem_updFirst hkv with h' | ⟨e, he, rfl⟩
    · exact h.1 kv h'
    · exact ⟨by rw [hf]; exact (h.1 _ he).1, (h.1 _ he).2⟩
  · rw [RegOK] at h
    rw [updFirst_map_fst]
    exact h.2

theorem RegOK_regAddRef {reg : Registry α} {n : Nat} {h : Handle}
    (hok : RegOK reg n) : RegOK (regAddRef reg h) n := by
  unfold regAddRef
  cases lookupReg reg h.id with
  | none => exact hok
  | some e =>
    dsimp only
    split
    · exact RegOK_updFirst (fun _ => rfl) hok
    · exact hok

theorem RegOK_regRelease {reg : Registry α} {n : Nat} {h : Handle}
    (hok : RegOK reg n) : RegOK (regRelease reg h) n := by
  unfold regRelease
  cases lookupReg reg h.id with
  | none => exact hok
  | some e =>
    dsimp only
    split
    · refine RegOK_updFirst (fun e' => ?_) hok
      by_cases hr : 0 < e'.refCount <;> simp [hr]
    · exact hok

theorem RegOK_append_fresh {reg : Registry α} {n : Nat} {e : RegEntry α}
    (hg : e.generation = 1) (hok : RegOK reg n) :
    RegOK (reg ++ [(n, e)]) (n + 1) := by
  constructor
  · intro kv hkv
    rcases List.mem_append.mp hkv with h' | h'
    · exact ⟨(hok.1 kv h').1, Nat.lt_succ_of_lt (hok.1 kv h').2⟩
    · rcases List.mem_singleton.mp h' with rfl
      exact ⟨hg, Nat.lt_succ_self n⟩
  · rw [List.map_append]
    refine List.Nodup.append hok.2 (List.nodup_singleton n) ?_
    intro a ha hb
    rcases List.mem_map.mp ha with ⟨kv, hkv, rfl⟩
    have hlt := (hok.1 kv hkv).2
    simp at hb
    omega

theorem RegOK_filter {reg : Registry α} {n : Nat}
    (p : Nat × RegEntry α → Bool) (hok : RegOK reg n) :
    RegOK (reg.filter p) n := by
  constructor
  · intro kv hkv
    exact hok.1 kv (List.mem_of_mem_filter hkv)
  · exact List.Nodup.sublist
      (List.Sublist.map Prod.fst (List.filter_sublist reg)) hok.2

theorem freshKeys_refl (r : Registry α) (b : Nat) : freshKeys r r b :=
  fun _ hk => Or.inl hk

theorem freshKeys_of_eq {r r' : Registry α} {b : Nat}
    (h : r'.map Prod.fst = r.map Prod.fst) : freshKeys r r' b :=
  fun _ hk => Or.inl (h ▸ hk)

theorem freshKeys_trans {r r' r'' : Registry α} {b b' : Nat}
    (h1 : freshKeys r r' b) (h2 : freshKeys r' r'' b') (hb : b ≤ b') :
    freshKeys r r'' b := by
  intro k hk
  rcases h2 k hk with h' | h'
  · exact h1 k h'
  · exact Or.inr (Nat.le_trans hb h')

theorem freshKeys_append (r : Registry α) (e : RegEntry α) (n : Nat) :
    freshKeys r (r ++ [(n, e)]) n := by
  intro k hk
  rw [List.map_append] at hk
  rcases List.mem_append.mp hk with h | h
  · exact Or.inl h
  · simp at h
    exact Or.inr (Nat.le_of_eq h.symm)

theorem freshKeys_filter (r : Registry α) (p : Nat × RegEntry α → Bool)
    (b : Nat) : freshKeys r (r.filter p) b := by
  intro k hk
  rcases List.mem_map.mp hk with ⟨kv, hkv, rfl⟩
  exact Or.inl (List.mem_map.mpr ⟨kv, List.mem_of_mem_filter hkv, rfl⟩)

theorem Evolves_refl (s : AMState) : Evolves s s := by
  exact ⟨⟨Nat.le_refl _, Nat.le_refl _, Nat.le_refl _, Nat.le_refl _⟩,
    freshKeys_refl _ _, freshKeys_refl _ _, freshKeys_refl _ _,
    freshKeys_refl _ _⟩

theorem Evolves_trans (a b c : AMState) (h1 : Evolves a b)
    (h2 : Evolves b c) : Evolves a c := by
  refine ⟨⟨Nat.le_trans h1.1.1 h2.1.1, Nat.le_trans h1.1.2.1 h2.1.2.1,
    Nat.le_trans h1.1.2.2.1 h2.1.2.2.1, Nat.le_trans h1.1.2.2.2 h2.1.2.2.2⟩,
    ?_, ?_, ?_, ?_⟩
  · exact freshKeys_trans h1.2.1 h2.2.1 h1.1.1
  · exact freshKeys_trans h1.2.2.1 h2.2.2.1 h1.1.2.1
  · exact freshKeys_trans h1.2.2.2.1 h2.2.2.2.1 h1.1.2.2.1
  · exact freshKeys_trans h1.2.2.2.2 h2.2.2.2.2 h1.1.2.2.2

theorem Evolves_ite (c : Prop) [Decidable c] (s : AMState)
    (f : AMState → AMState) (hf : Evolves s (f s)) :
    Evolves s (if c then f s else s) := by
  split
  · exact hf
  · exact Evolves_refl s

theorem Evolves_ite_pair (c : Prop) [Decidable c] (s : AMState)
    (x y : Handle × AMState × List Event)
    (hx : Evolves s x.2.1) (hy : Evolves s y.2.1) :
    Evolves s ((if c then x else y)).2.1 := by
  split
  · exact hx
  · exact hy

theorem Evolves_foldl {β : Type} (f : AMState → β → AMState) (l : List β)
    (hf : ∀ t b, Evolves t (f t b)) :
    ∀ s, Evolves s (l.foldl f s) := by
  induction l with
  | nil => intro s; exact Evolves_refl s
  | cons b rest ih =>
    intro s
    exact Evolves_trans _ _ _ (hf s b) (ih (f s b))

theorem Evolves_addRefMesh (s : AMState) (h : Handle) :
    Evolves s (addRefMesh s h) := by
  exact ⟨⟨Nat.le_refl _, Nat.le_refl _, Nat.le_refl _, Nat.le_refl _⟩,
    freshKeys_of_eq (regAddRef_map_fst s.meshes h), freshKeys_refl _ _,
    freshKeys_refl _ _, freshKeys_refl _ _⟩

theorem Evolves_addRefTexture (s : AMState) (h : Handle) :
    Evolves s (addRefTexture s h) := by
  exact ⟨⟨Nat.le_refl _, Nat.le_refl _, Nat.le_refl _, Nat.le_refl _⟩,
    freshKeys_refl _ _, freshKeys_of_eq (regAddRef_map_fst s.textures h),
    freshKeys_refl _ _, freshKeys_refl _ _⟩

theorem Evolves_addRefMaterial (s : AMState) (h : Handle) :
    Evolves s (addRefMaterial s h) := by
  exact ⟨⟨Nat.le_refl _, Nat.le_refl _, Nat.le_refl _, Nat.le_refl _⟩,
    freshKeys_refl _ _, freshKeys_refl _ _,
    freshKeys_of_eq (regAddRef_map_fst s.materials h), freshKeys_refl _ _⟩

theorem Evolves_addRefModel (s : AMState) (h : Handle) :
    Evolves s (addRefModel s h) := by
  exact ⟨⟨Nat.le_refl _, Nat.le_refl _, Nat.le_refl _, Nat.le_refl _⟩,
    freshKeys_refl _ _, freshKeys_refl _ _, freshKeys_refl _ _,
    freshKeys_of_eq (regAddRef_map_fst s.models h)⟩

theorem Evolves_releaseMesh (s : AMState) (h : Handle) :
    Evolves s (releaseMesh s h) := by
  exact ⟨⟨Nat.le_refl _, Nat.le_refl _, Nat.le_refl _, Nat.le_refl _⟩,
    freshKeys_of_eq (regRelease_map_fst s.meshes h), freshKeys_refl _ _,
    freshKeys_refl _ _, freshKeys_refl _ _⟩

theorem Evolves_releaseTexture (s : AMState) (h : Handle) :
    Evolves s (releaseTexture s h) := by
  exact ⟨⟨Nat.le_refl _, Nat.le_refl _, Nat.le_refl _, Nat.le_refl _⟩,
    freshKeys_refl _ _, freshKeys_of_eq (regRelease_map_fst s.textures h),
    freshKeys_refl _ _, freshKeys_refl _ _⟩

theorem Evolves_releaseMaterial (s : AMState) (h : Handle) :
    Evolves s (releaseMaterial s h) := by
  exact ⟨⟨Nat.le_refl _, Nat.le_refl _, Nat.le_refl _, Nat.le_refl _⟩,
    freshKeys_refl _ _, freshKeys_refl _ _,
    freshKeys_of_eq (regRelease_map_fst s.materials h), freshKeys_refl _ _⟩

theorem Evolves_releaseModel (s : AMState) (h : Handle) :
    Evolves s (releaseModel s h) := by
  exact ⟨⟨Nat.le_refl _, Nat.le_refl _, Nat.le_refl _, Nat.le_refl _⟩,
    freshKeys_refl _ _, freshKeys_refl _ _, freshKeys_refl _ _,
    freshKeys_of_eq (regRelease_map_fst s.models h)⟩

theorem Evolves_createTexture (s : AMState) (tex : TextureAsset) (r : Nat) :
    Evolves s (createTexture_Internal s tex r).2 := by
  exact ⟨⟨Nat.le_refl _, Nat.le_succ _, Nat.le_refl _, Nat.le_refl _⟩,
    freshKeys_refl _ _, freshKeys_append s.textures _ s.nextTextureID,
    freshKeys_refl _ _, freshKeys_refl _ _⟩

theorem Evolves_createMaterial (s : AMState) (mat : MaterialAsset) (r : Nat) :
    Evolves s (createMaterial_Internal s mat r).2 := by
  exact ⟨⟨Nat.le_refl _, Nat.le_refl _, Nat.le_succ _, Nat.le_refl _⟩,
    freshKeys_refl _ _, freshKeys_refl _ _,
    freshKeys_append s.materials _ s.nextMaterialID, freshKeys_refl _ _⟩

theorem Evolves_createModel (s : AMState) (m : ModelAsset) (path : String)
    (r : Nat) : Evolves s (createModel_Internal s m path r).2 := by
  exact ⟨⟨Nat.le_refl _, Nat.le_refl _, Nat.le_refl _, Nat.le_succ _⟩,
    freshKeys_refl _ _, freshKeys_refl _ _, freshKeys_refl _ _,
    freshKeys_append s.models _ s.nextModelID⟩

theorem Evolves_createMesh (s : AMState) (d : MeshData) (p : String)
    (r : Nat) (poolOk uploadOk : Bool) :
    Evolves s (createMeshFromData_Internal s d p r poolOk uploadOk).2.1 := by
  unfold createMeshFromData_Internal
  split
  · exact Evolves_refl s
  · split
    · exact Evolves_refl s
    · exact ⟨⟨Nat.le_succ _, Nat.le_refl _, Nat.le_refl _, Nat.le_refl _⟩,
        freshKeys_append s.meshes _ s.nextMeshID, freshKeys_refl _ _,
        freshKeys_refl _ _, freshKeys_refl _ _⟩

theorem Evolves_updFirst_models (s : AMState) (id : Nat)
    (f : RegEntry ModelAsset → RegEntry ModelAsset) :
    Evolves s { s with models := updFirst s.models id f } := by
  exact ⟨⟨Nat.le_refl _, Nat.le_refl _, Nat.le_refl _, Nat.le_refl _⟩,
    freshKeys_refl _ _, freshKeys_refl _ _, freshKeys_refl _ _,
    freshKeys_of_eq (updFirst_map_fst s.models id f)⟩

theorem Evolves_addRefMaterialTextures (s : AMState) (mh : Handle) :
    Evolves s (addRefMaterialTextures s mh) := by
  unfold addRefMaterialTextures
  cases getMaterial s mh with
  | none => exact Evolves_refl s
  | some cm =>
    dsimp only
    exact Evolves_trans _ _ _ (Evolves_trans _ _ _ (Evolves_trans _ _ _
      (Evolves_trans _ _ _
        (Evolves_ite _ s (fun t => addRefTexture t cm.baseColorTexture)
          (Evolves_addRefTexture _ _))
        (Evolves_ite _ _ (fun t => addRefTexture t cm.normalTexture)
          (Evolves_addRefTexture _ _)))
      (Evolves_ite _ _ (fun t => addRefTexture t cm.metallicRoughnessTexture)
        (Evolves_addRefTexture _ _)))
      (Evolves_ite _ _ (fun t => addRefTexture t cm.occlusionTexture)
        (Evolves_addRefTexture _ _)))
      (Evolves_ite _ _ (fun t => addRefTexture t cm.emissiveTexture)
        (Evolves_addRefTexture _ _))

theorem Evolves_uploadLoop (g : GpuOracle) (ts : List SModelTextureRecord) :
    ∀ n i s, Evolves s (uploadLoop g ts i n s).2.1 := by
  intro n
  induction n with
  | zero => intro i s; exact Evolves_refl s
  | succ m ih =>
    intro i s
    rw [show uploadLoop g ts i (m + 1) s =
        (match uploadTextureResult g true i (ts.getD i {}) with
         | none => (false, s, [], uploadTextureEvents g true i (ts.getD i {}))
         | some tex =>
           let c := createTexture_Internal s tex 0
           let r := uploadLoop g ts (i + 1) m c.2
           (r.1, r.2.1, c.1 :: r.2.2.1,
             uploadTextureEvents g true i (ts.getD i {}) ++ r.2.2.2)) from rfl]
    cases uploadTextureResult g true i (ts.getD i {}) with
    | none => exact Evolves_refl s
    | some tex =>
      dsimp only
      exact Evolves_trans _ _ _ (Evolves_createTexture s tex 0)
        (ih (i + 1) (createTexture_Internal s tex 0).2)

theorem Evolves_materialLoop (ths : List Handle)
    (mats : List SModelMaterialRecord) :
    ∀ n i s, Evolves s (materialLoop ths mats i n s).1 := by
  intro n
  induction n with
  | zero => intro i s; exact Evolves_refl s
  | succ m ih =>
    intro i s
    rw [show materialLoop ths mats i (m + 1) s =
        (let c := createMaterial_Internal s
            (buildMaterial ths (mats.getD i {})) 0
         let s'' := addRefMaterialTextures c.2 c.1
         let r := materialLoop ths mats (i + 1) m s''
         (r.1, c.1 :: r.2)) from rfl]
    dsimp only
    exact Evolves_trans _ _ _
      (Evolves_trans _ _ _
        (Evolves_createMaterial s (buildMaterial ths (mats.getD i {})) 0)
        (Evolves_addRefMaterialTextures
          (createMaterial_Internal s (buildMaterial ths (mats.getD i {})) 0).2
          (createMaterial_Internal s (buildMaterial ths (mats.getD i {})) 0).1))
      (ih (i + 1) (addRefMaterialTextures
        (createMaterial_Internal s (buildMaterial ths (mats.getD i {})) 0).2
        (createMaterial_Internal s (buildMaterial ths (mats.getD i {})) 0).1))

theorem Evolves_meshLoop (g : GpuOracle) (ms : List SModelMeshRecord)
    (path : String) : ∀ n i s, Evolves s (meshLoop g ms path i n s).1 := by
  intro n
  induction n with
  | zero => intro i s; exact Evolves_refl s
  | succ m ih =>
    intro i s
    rw [show meshLoop g ms path i (m + 1) s =
        (let mr := ms.getD i {}
         let md : MeshData :=
           { vertexCount := mr.vertexCount, indexCount := mr.indexCount,
             vertexStride := mr.vertexStride,
             indexFormat := if mr.indexType = 0 then 0 else 1 }
         let c := createMeshFromData_Internal s md
             (path ++ "#mesh" ++ toString i) 0 (g.meshPoolOk i) (g.meshUploadOk i)
         let r := meshLoop g ms path (i + 1) m c.2.1
         (r.1, c.1 :: r.2.1, c.2.2 ++ r.2.2)) from rfl]
    dsimp only
    exact Evolves_trans _ _ _
      (Evolves_createMesh s
        { vertexCount := (ms.getD i {}).vertexCount,
          indexCount := (ms.getD i {}).indexCount,
          vertexStride := (ms.getD i {}).vertexStride,
          indexFormat := if (ms.getD i {}).indexType = 0 then 0 else 1 }
        (path ++ "#mesh" ++ toString i) 0 (g.meshPoolOk i) (g.meshUploadOk i))
      (ih (i + 1) (createMeshFromData_Internal s
        { vertexCount := (ms.getD i {}).vertexCount,
          indexCount := (ms.getD i {}).indexCount,
          vertexStride := (ms.getD i {}).vertexStride,
          indexFormat := if (ms.getD i {}).indexType = 0 then 0 else 1 }
        (path ++ "#mesh" ++ toString i) 0
        (g.meshPoolOk i) (g.meshUploadOk i)).2.1)

theorem Evolves_primLoop (prims : List SModelPrimitiveRecord)
    (mshs mths : List Handle) :
    ∀ n i s, Evolves s (primLoop prims mshs mths i n s).1 := by
  intro n
  induction n with
  | zero => intro i s; exact Evolves_refl s
  | succ m ih =>
    intro i s
    rw [show primLoop prims mshs mths i (m + 1) s =
        (let p := prims.getD i {}
         let prim : ModelPrimitive :=
           { mesh := mshs.getD p.meshIndex invalidHandle
             material := mths.getD p.materialIndex invalidHandle
             firstIndex := p.firstIndex, indexCount := p.indexCount,
             vertexOffset := p.vertexOffset }
         let s1 := if prim.mesh.isValid then addRefMesh s prim.mesh else s
         let meshDep : List Handle :=
           if prim.mesh.isValid then [prim.mesh] else []
         let s2 := if prim.material.isValid then addRefMaterial s1 prim.material
           else s1
         let matDep : List Handle :=
           if prim.material.isValid then [prim.material] else []
         let r := primLoop prims mshs mths (i + 1) m s2
         (r.1, prim :: r.2.1, meshDep ++ r.2.2.1, matDep ++ r.2.2.2))
      from rfl]
    dsimp only
    exact Evolves_trans _ _ _
      (Evolves_trans _ _ _
        (Evolves_ite _ s
          (fun t => addRefMesh t
            (mshs.getD (prims.getD i {}).meshIndex invalidHandle))
          (Evolves_addRefMesh _ _))
        (Evolves_ite _ _
          (fun t => addRefMaterial t
            (mths.getD (prims.getD i {}).materialIndex invalidHandle))
          (Evolves_addRefMaterial _ _)))
      (ih (i + 1) _)

theorem Evolves_loadMesh (s : AMState) (path : String)
    (parsed : Option MeshData) (poolOk uploadOk : Bool) :
    Evolves s (loadMesh s path parsed poolOk uploadOk).2.1 := by
  unfold loadMesh
  cases lookupStr s.meshPathCache path with
  | some h => exact Evolves_addRefMesh s h
  | none =>
    cases parsed with
    | none => exact Evolves_refl s
    | some d =>
      dsimp only
      refine Evolves_ite_pair _ s _ _ ?_ ?_
      · exact Evolves_createMesh s d path 1 poolOk uploadOk
      · exact Evolves_createMesh s d path 1 poolOk uploadOk

theorem Evolves_loadModelSuccess (s1 : AMState) (ths : List Handle)
    (tevs : List Event) (view : SModelFile) (path : String) (g : GpuOracle) :
    Evolves s1 (loadModelSuccess s1 ths tevs view path g).2.1 := by
  unfold loadModelSuccess
  dsimp only
  exact Evolves_trans _ _ _ (Evolves_trans _ _ _ (Evolves_trans _ _ _
    (Evolves_trans _ _ _
      (Evolves_materialLoop ths view.materials view.header.materialCount 0 s1)
      (Evolves_meshLoop g view.meshes path view.header.meshCount 0
        (materialLoop ths view.materials 0 view.header.materialCount s1).1))
    (Evolves_primLoop view.primitives
      (meshLoop g view.meshes path 0 view.header.meshCount
        (materialLoop ths view.materials 0 view.header.materialCount s1).1).2.1
      (materialLoop ths view.materials 0 view.header.materialCount s1).2
      view.header.primitiveCount 0
      (meshLoop g view.meshes path 0 view.header.meshCount
        (materialLoop ths view.materials 0 view.header.materialCount s1).1).1))
    (Evolves_createModel
      (primLoop view.primitives
        (meshLoop g view.meshes path 0 view.header.meshCount
          (materialLoop ths view.materials 0 view.header.materialCount s1).1).2.1
        (materialLoop ths view.materials 0 view.header.materialCount s1).2
        0 view.header.primitiveCount
        (meshLoop g view.meshes path 0 view.header.meshCount
          (materialLoop ths view.materials 0 view.header.materialCount s1).1).1).1
      { primitives :=
          (primLoop view.primitives
            (meshLoop g view.meshes path 0 view.header.meshCount
              (materialLoop ths view.materials 0
                view.header.materialCount s1).1).2.1
            (materialLoop ths view.materials 0 view.header.materialCount s1).2
            0 view.header.primitiveCount
            (meshLoop g view.meshes path 0 view.header.meshCount
              (materialLoop ths view.materials 0
                view.header.materialCount s1).1).1).2.1 }
      path 1))
    (Evolves_updFirst_models _ _ _)

theorem Evolves_loadModelFresh (s : AMState) (path : String)
    (parsed : Except String SModelFile) (g : GpuOracle) :
    Evolves s (loadModelFresh s path parsed g).2.1 := by
  unfold loadModelFresh
  cases parsed with
  | error e => exact Evolves_refl s
  | ok view =>
    dsimp only
    refine Evolves_ite_pair _ s _ _ (Evolves_refl s) ?_
    refine Evolves_ite_pair _ s _ _ (Evolves_refl s) ?_
    refine Evolves_ite_pair _ s _ _ ?_ ?_
    · exact Evolves_uploadLoop g view.textures view.header.textureCount 0 s
    refine Evolves_ite_pair _ s _ _ ?_ ?_
    · exact Evolves_uploadLoop g view.textures view.header.textureCount 0 s
    · exact Evolves_trans _ _ _
        (Evolves_uploadLoop g view.textures view.header.textureCount 0 s)
        (Evolves_loadModelSuccess
          (uploadLoop g view.textures 0 view.header.textureCount s).2.1
          (uploadLoop g view.textures 0 view.header.textureCount s).2.2.1
          (uploadLoop g view.textures 0 view.header.textureCount s).2.2.2
          view path g)

theorem Evolves_loadModel (s : AMState) (path : String)
    (parsed : Except String SModelFile) (g : GpuOracle) :
    Evolves s (loadModel s path parsed g).2.1 := by
  unfold loadModel
  cases lookupStr s.modelPathCache path with
  | some h => exact Evolves_addRefModel s h
  | none => exact Evolves_loadModelFresh s path parsed g

theorem Evolves_sweepModels (s : AMState) : Evolves s (sweepModels s) := by
  have hs' : Evolves s ((s.models.filter fun kv => kv.2.refCount = 0).foldl
      (fun acc kv =>
        let acc := kv.2.meshDeps.foldl releaseMesh acc
        let acc := kv.2.materialDeps.foldl releaseMaterial acc
        { acc with modelPathCache := eraseStr acc.modelPathCache kv.2.path })
      s) :=
    Evolves_foldl
      (fun acc kv =>
        let acc := kv.2.meshDeps.foldl releaseMesh acc
        let acc := kv.2.materialDeps.foldl releaseMaterial acc
        { acc with modelPathCache := eraseStr acc.modelPathCache kv.2.path })
      (s.models.filter fun kv => kv.2.refCount = 0)
      (fun t b => Evolves_trans _ _ _
        (Evolves_foldl releaseMesh b.2.meshDeps
          (fun t' h' => Evolves_releaseMesh t' h') t)
        (Evolves_foldl releaseMaterial b.2.materialDeps
          (fun t' h' => Evolves_releaseMaterial t' h')
          (b.2.meshDeps.foldl releaseMesh t)))
      s
  exact Evolves_trans _ _ _ hs'
    ⟨⟨Nat.le_refl _, Nat.le_refl _, Nat.le_refl _, Nat.le_refl _⟩,
      freshKeys_refl _ _, freshKeys_refl _ _, freshKeys_refl _ _,
      freshKeys_filter _ _ _⟩

theorem Evolves_sweepMaterials (s : AMState) :
    Evolves s (sweepMaterials s) := by
  have hs' : Evolves s ((s.materials.filter fun kv => kv.2.refCount = 0).foldl
      (fun acc kv => kv.2.textureDeps.foldl releaseTexture acc) s) :=
    Evolves_foldl
      (fun acc kv => kv.2.textureDeps.foldl releaseTexture acc)
      (s.materials.filter fun kv => kv.2.refCount = 0)
      (fun t b => Evolves_foldl releaseTexture b.2.textureDeps
        (fun t' h' => Evolves_releaseTexture t' h') t)
      s
  exact Evolves_trans _ _ _ hs'
    ⟨⟨Nat.le_refl _, Nat.le_refl _, Nat.le_refl _, Nat.le_refl _⟩,
      freshKeys_refl _ _, freshKeys_refl _ _, freshKeys_filter _ _ _,
      freshKeys_refl _ _⟩

theorem Evolves_sweepMeshes (s : AMState) : Evolves s (sweepMeshes s) := by
  have hs' : Evolves s ((s.meshes.filter fun kv => kv.2.refCount = 0).foldl
      (fun acc kv =>
        { acc with meshPathCache := eraseStr acc.meshPathCache kv.2.path })
      s) :=
    Evolves_foldl
      (fun acc kv =>
        { acc with meshPathCache := eraseStr acc.meshPathCache kv.2.path })
      (s.meshes.filter fun kv => kv.2.refCount = 0)
      (fun t b => Evolves_refl t) s
  exact Evolves_trans _ _ _ hs'
    ⟨⟨Nat.le_refl _, Nat.le_refl _, Nat.le_refl _, Nat.le_refl _⟩,
      freshKeys_filter _ _ _, freshKeys_refl _ _, freshKeys_refl _ _,
      freshKeys_refl _ _⟩

theorem Evolves_sweepTextures (s : AMState) : Evolves s (sweepTextures s) := by
  exact ⟨⟨Nat.le_refl _, Nat.le_refl _, Nat.le_refl _, Nat.le_refl _⟩,
    freshKeys_refl _ _, freshKeys_filter _ _ _, freshKeys_refl _ _,
    freshKeys_refl _ _⟩

theorem Evolves_garbageCollect (s : AMState) :
    Evolves s (garbageCollect s) := by
  exact Evolves_trans _ _ _ (Evolves_trans _ _ _ (Evolves_trans _ _ _
    (Evolves_sweepModels s) (Evolves_sweepMaterials (sweepModels s)))
    (Evolves_sweepMeshes (sweepMaterials (sweepModels s))))
    (Evolves_sweepTextures (sweepMeshes (sweepMaterials (sweepModels s))))

theorem Evolves_step {s s' : AMState} (hst : Step s s') : Evolves s s' := by
  cases hst with
  | callAddRefMesh h => exact Evolves_addRefMesh s h
  | callAddRefTexture h => exact Evolves_addRefTexture s h
  | callAddRefMaterial h => exact Evolves_addRefMaterial s h
  | callAddRefModel h => exact Evolves_addRefModel s h
  | callReleaseMesh h => exact Evolves_releaseMesh s h
  | callReleaseTexture h => exact Evolves_releaseTexture s h
  | callReleaseMaterial h => exact Evolves_releaseMaterial s h
  | callReleaseModel h => exact Evolves_releaseModel s h
  | callLoadMesh path parsed poolOk uploadOk =>
    exact Evolves_loadMesh s path parsed poolOk uploadOk
  | callLoadModel path parsed g => exact Evolves_loadModel s path parsed g
  | callGarbageCollect => exact Evolves_garbageCollect s

theorem AMInv_ite (c : Prop) [Decidable c] (s : AMState)
    (f : AMState → AMState) (hf : AMInv s → AMInv (f s)) (hs : AMInv s) :
    AMInv (if c then f s else s) := by
  split
  · exact hf hs
  · exact hs

theorem AMInv_ite_pair (c : Prop) [Decidable c]
    (x y : Handle × AMState × List Event)
    (hx : AMInv x.2.1) (hy : AMInv y.2.1) :
    AMInv ((if c then x else y)).2.1 := by
  split
  · exact hx
  · exact hy

theorem AMInv_foldl {β : Type} (f : AMState → β → AMState) (l : List β)
    (hf : ∀ t b, AMInv t → AMInv (f t b)) :
    ∀ s, AMInv s → AMInv (l.foldl f s) := by
  induction l with
  | nil => intro s hs; exact hs
  | cons b rest ih =>
    intro s hs
    exact ih (f s b) (hf s b hs)

theorem AMInv_addRefMesh (s : AMState) (h : Handle) (hs : AMInv s) :
    AMInv (addRefMesh s h) := by
  exact ⟨RegOK_regAddRef hs.1, hs.2⟩

theorem AMInv_addRefTexture (s : AMState) (h : Handle) (hs : AMInv s) :
    AMInv (addRefTexture s h) := by
  exact ⟨hs.1, RegOK_regAddRef hs.2.1, hs.2.2⟩

theorem AMInv_addRefMaterial (s : AMState) (h : Handle) (hs : AMInv s) :
    AMInv (addRefMaterial s h) := by
  exact ⟨hs.1, hs.2.1, RegOK_regAddRef hs.2.2.1, hs.2.2.2⟩

theorem AMInv_addRefModel (s : AMState) (h : Handle) (hs : AMInv s) :
    AMInv (addRefModel s h) := by
  exact ⟨hs.1, hs.2.1, hs.2.2.1, RegOK_regAddRef hs.2.2.2⟩

theorem AMInv_releaseMesh (s : AMState) (h : Handle) (hs : AMInv s) :
    AMInv (releaseMesh s h) := by
  exact ⟨RegOK_regRelease hs.1, hs.2⟩

theorem AMInv_releaseTexture (s : AMState) (h : Handle) (hs : AMInv s) :
    AMInv (releaseTexture s h) := by
  exact ⟨hs.1, RegOK_regRelease hs.2.1, hs.2.2⟩

theorem AMInv_releaseMaterial (s : AMState) (h : Handle) (hs : AMInv s) :
    AMInv (releaseMaterial s h) := by
  exact ⟨hs.1, hs.2.1, RegOK_regRelease hs.2.2.1, hs.2.2.2⟩

theorem AMInv_releaseModel (s : AMState) (h : Handle) (hs : AMInv s) :
    AMInv (releaseModel s h) := by
  exact ⟨hs.1, hs.2.1, hs.2.2.1, RegOK_regRelease hs.2.2.2⟩

theorem AMInv_createTexture (s : AMState) (tex : TextureAsset) (r : Nat)
    (hs : AMInv s) : AMInv (createTexture_Internal s tex r).2 := by
  exact ⟨hs.1, RegOK_append_fresh rfl hs.2.1, hs.2.2⟩

theorem AMInv_createMaterial (s : AMState) (mat : MaterialAsset) (r : Nat)
    (hs : AMInv s) : AMInv (createMaterial_Internal s mat r).2 := by
  exact ⟨hs.1, hs.2.1, RegOK_append_fresh rfl hs.2.2.1, hs.2.2.2⟩

theorem AMInv_createModel (s : AMState) (m : ModelAsset) (path : String)
    (r : Nat) (hs : AMInv s) : AMInv (createModel_Internal s m path r).2 := by
  exact ⟨hs.1, hs.2.1, hs.2.2.1, RegOK_append_fresh rfl hs.2.2.2⟩

theorem AMInv_createMesh (s : AMState) (d : MeshData) (p : String)
    (r : Nat) (poolOk uploadOk : Bool) (hs : AMInv s) :
    AMInv (createMeshFromData_Internal s d p r poolOk uploadOk).2.1 := by
  unfold createMeshFromData_Internal
  split
  · exact hs
  · split
    · exact hs
    · exact ⟨RegOK_append_fresh rfl hs.1, hs.2⟩

theorem AMInv_addRefMaterialTextures (s : AMState) (mh : Handle)
    (hs : AMInv s) : AMInv (addRefMaterialTextures s mh) := by
  unfold addRefMaterialTextures
  cases getMaterial s mh with
  | none => exact hs
  | some cm =>
    dsimp only
    exact AMInv_ite _ _ (fun t => addRefTexture t cm.emissiveTexture)
      (fun h4 => AMInv_addRefTexture _ _ h4)
      (AMInv_ite _ _ (fun t => addRefTexture t cm.occlusionTexture)
        (fun h3 => AMInv_addRefTexture _ _ h3)
        (AMInv_ite _ _ (fun t => addRefTexture t cm.metallicRoughnessTexture)
          (fun h2 => AMInv_addRefTexture _ _ h2)
          (AMInv_ite _ _ (fun t => addRefTexture t cm.normalTexture)
            (fun h1 => AMInv_addRefTexture _ _ h1)
            (AMInv_ite _ s (fun t => addRefTexture t cm.baseColorTexture)
              (fun h0 => AMInv_addRefTexture _ _ h0) hs))))

theorem AMInv_uploadLoop (g : GpuOracle) (ts : List SModelTextureRecord) :
    ∀ n i s, AMInv s → AMInv (uploadLoop g ts i n s).2.1 := by
  intro n
  induction n with
  | zero => intro i s hs; exact hs
  | succ m ih =>
    intro i s hs
    rw [show uploadLoop g ts i (m + 1) s =
        (match uploadTextureResult g true i (ts.getD i {}) with
         | none => (false, s, [], uploadTextureEvents g true i (ts.getD i {}))
         | some tex =>
           let c := createTexture_Internal s tex 0
           let r := uploadLoop g ts (i + 1) m c.2
           (r.1, r.2.1, c.1 :: r.2.2.1,
             uploadTextureEvents g true i (ts.getD i {}) ++ r.2.2.2)) from rfl]
    cases uploadTextureResult g true i (ts.getD i {}) with
    | none => exact hs
    | some tex =>
      dsimp only
      exact ih (i + 1) (createTexture_Internal s tex 0).2
        (AMInv_createTexture s tex 0 hs)

theorem AMInv_materialLoop (ths : List Handle)
    (mats : List SModelMaterialRecord) :
    ∀ n i s, AMInv s → AMInv (materialLoop ths mats i n s).1 := by
  intro n
  induction n with
  | zero => intro i s hs; exact hs
  | succ m ih =>
    intro i s hs
    rw [show materialLoop ths mats i (m + 1) s =
        (let c := createMaterial_Internal s
            (buildMaterial ths (mats.getD i {})) 0
         let s'' := addRefMaterialTextures c.2 c.1
         let r := materialLoop ths mats (i + 1) m s''
         (r.1, c.1 :: r.2)) from rfl]
    dsimp only
    exact ih (i + 1)
      (addRefMaterialTextures
        (createMaterial_Internal s (buildMaterial ths (mats.getD i {})) 0).2
        (createMaterial_Internal s (buildMaterial ths (mats.getD i {})) 0).1)
      (AMInv_addRefMaterialTextures _ _
        (AMInv_createMaterial s (buildMaterial ths (mats.getD i {})) 0 hs))

theorem AMInv_meshLoop (g : GpuOracle) (ms : List SModelMeshRecord)
    (path : String) :
    ∀ n i s, AMInv s → AMInv (meshLoop g ms path i n s).1 := by
  intro n
  induction n with
  | zero => intro i s hs; exact hs
  | succ m ih =>
    intro i s hs
    rw [show meshLoop g ms path i (m + 1) s =
        (let mr := ms.getD i {}
         let md : MeshData :=
           { vertexCount := mr.vertexCount, indexCount := mr.indexCount,
             vertexStride := mr.vertexStride,
             indexFormat := if mr.indexType = 0 then 0 else 1 }
         let c := createMeshFromData_Internal s md
             (path ++ "#mesh" ++ toString i) 0 (g.meshPoolOk i) (g.meshUploadOk i)
         let r := meshLoop g ms path (i + 1) m c.2.1
         (r.1, c.1 :: r.2.1, c.2.2 ++ r.2.2)) from rfl]
    dsimp only
    exact ih (i + 1)
      (createMeshFromData_Internal s
        { vertexCount := (ms.getD i {}).vertexCount,
          indexCount := (ms.getD i {}).indexCount,
          vertexStride := (ms.getD i {}).vertexStride,
          indexFormat := if (ms.getD i {}).indexType = 0 then 0 else 1 }
        (path ++ "#mesh" ++ toString i) 0
        (g.meshPoolOk i) (g.meshUploadOk i)).2.1
      (AMInv_createMesh s _ _ 0 (g.meshPoolOk i) (g.meshUploadOk i) hs)

theorem AMInv_primLoop (prims : List SModelPrimitiveRecord)
    (mshs mths : List Handle) :
    ∀ n i s, AMInv s → AMInv (primLoop prims mshs mths i n s).1 := by
  intro n
  induction n with
  | zero => intro i s hs; exact hs
  | succ m ih =>
    intro i s hs
    rw [show primLoop prims mshs mths i (m + 1) s =
        (let p := prims.getD i {}
         let prim : ModelPrimitive :=
           { mesh := mshs.getD p.meshIndex invalidHandle
             material := mths.getD p.materialIndex invalidHandle
             firstIndex := p.firstIndex, indexCount := p.indexCount,
             vertexOffset := p.vertexOffset }
         let s1 := if prim.mesh.isValid then addRefMesh s prim.mesh else s
         let meshDep : List Handle :=
           if prim.mesh.isValid then [prim.mesh] else []
         let s2 := if prim.material.isValid then addRefMaterial s1 prim.material
           else s1
         let matDep : List Handle :=
           if prim.material.isValid then [prim.material] else []
         let r := primLoop prims mshs mths (i + 1) m s2
         (r.1, prim :: r.2.1, meshDep ++ r.2.2.1, matDep ++ r.2.2.2))
      from rfl]
    dsimp only
    exact ih (i + 1) _
      (AMInv_ite _ _
        (fun t => addRefMaterial t
          (mths.getD (prims.getD i {}).materialIndex invalidHandle))
        (fun h1 => AMInv_addRefMaterial _ _ h1)
        (AMInv_ite _ s
          (fun t => addRefMesh t
            (mshs.getD (prims.getD i {}).meshIndex invalidHandle))
          (fun h0 => AMInv_addRefMesh _ _ h0) hs))

theorem AMInv_loadMesh (s : AMState) (path : String)
    (parsed : Option MeshData) (poolOk uploadOk : Bool) (hs : AMInv s) :
    AMInv (loadMesh s path parsed poolOk uploadOk).2.1 := by
  unfold loadMesh
  cases lookupStr s.meshPathCache path with
  | some h => exact AMInv_addRefMesh s h hs
  | none =>
    cases parsed with
    | none => exact hs
    | some d =>
      dsimp only
      refine AMInv_ite_pair _ _ _ ?_ ?_
      · exact AMInv_createMesh s d path 1 poolOk uploadOk hs
      · exact AMInv_createMesh s d path 1 poolOk uploadOk hs

theorem AMInv_loadModelSuccess (s1 : AMState) (ths : List Handle)
    (tevs : List Event) (view : SModelFile) (path : String) (g : GpuOracle)
    (hs : AMInv s1) : AMInv (loadModelSuccess s1 ths tevs view path g).2.1 := by
  unfold loadModelSuccess
  dsimp only
  have h4 := AMInv_createModel
    (primLoop view.primitives
      (meshLoop g view.meshes path 0 view.header.meshCount
        (materialLoop ths view.materials 0 view.header.materialCount s1).1).2.1
      (materialLoop ths view.materials 0 view.header.materialCount s1).2
      0 view.header.primitiveCount
      (meshLoop g view.meshes path 0 view.header.meshCount
        (materialLoop ths view.materials 0 view.header.materialCount s1).1).1).1
    { primitives :=
        (primLoop view.primitives
          (meshLoop g view.meshes path 0 view.header.meshCount
            (materialLoop ths view.materials 0
              view.header.materialCount s1).1).2.1
          (materialLoop ths view.materials 0 view.header.materialCount s1).2
          0 view.header.primitiveCount
          (meshLoop g view.meshes path 0 view.header.meshCount
            (materialLoop ths view.materials 0
              view.header.materialCount s1).1).1).2.1 }
    path 1
    (AMInv_primLoop view.primitives
      (meshLoop g view.meshes path 0 view.header.meshCount
        (materialLoop ths view.materials 0 view.header.materialCount s1).1).2.1
      (materialLoop ths view.materials 0 view.header.materialCount s1).2
      view.header.primitiveCount 0
      (meshLoop g view.meshes path 0 view.header.meshCount
        (materialLoop ths view.materials 0 view.header.materialCount s1).1).1
      (AMInv_meshLoop g view.meshes path view.header.meshCount 0
        (materialLoop ths view.materials 0 view.header.materialCount s1).1
        (AMInv_materialLoop ths view.materials view.header.materialCount 0
          s1 hs)))
  exact ⟨h4.1, h4.2.1, h4.2.2.1, RegOK_updFirst (fun e => rfl) h4.2.2.2⟩

theorem AMInv_loadModelFresh (s : AMState) (path : String)
    (parsed : Except String SModelFile) (g : GpuOracle) (hs : AMInv s) :
    AMInv (loadModelFresh s path parsed g).2.1 := by
  unfold loadModelFresh
  cases parsed with
  | error e => exact hs
  | ok view =>
    dsimp only
    refine AMInv_ite_pair _ _ _ hs ?_
    refine AMInv_ite_pair _ _ _ hs ?_
    refine AMInv_ite_pair _ _ _ ?_ ?_
    · exact AMInv_uploadLoop g view.textures view.header.textureCount 0 s hs
    refine AMInv_ite_pair _ _ _ ?_ ?_
    · exact AMInv_uploadLoop g view.textures view.header.textureCount 0 s hs
    · exact AMInv_loadModelSuccess
        (uploadLoop g view.textures 0 view.header.textureCount s).2.1
        (uploadLoop g view.textures 0 view.header.textureCount s).2.2.1
        (uploadLoop g view.textures 0 view.header.textureCount s).2.2.2
        view path g
        (AMInv_uploadLoop g view.textures view.header.textureCount 0 s hs)

theorem AMInv_loadModel (s : AMState) (path : String)
    (parsed : Except String SModelFile) (g : GpuOracle) (hs : AMInv s) :
    AMInv (loadModel s path parsed g).2.1 := by
  unfold loadModel
  cases lookupStr s.modelPathCache path with
  | some h => exact AMInv_addRefModel s h hs
  | none => exact AMInv_loadModelFresh s path parsed g hs

theorem AMInv_sweepModels (s : AMState) (hs : AMInv s) :
    AMInv (sweepModels s) := by
  have hs' : AMInv ((s.models.filter fun kv => kv.2.refCount = 0).foldl
      (fun acc kv =>
        let acc := kv.2.meshDeps.foldl releaseMesh acc
        let acc := kv.2.materialDeps.foldl releaseMaterial acc
        { acc with modelPathCache := eraseStr acc.modelPathCache kv.2.path })
      s) :=
    AMInv_foldl
      (fun acc kv =>
        let acc := kv.2.meshDeps.foldl releaseMesh acc
        let acc := kv.2.materialDeps.foldl releaseMaterial acc
        { acc with modelPathCache := eraseStr acc.modelPathCache kv.2.path })
      (s.models.filter fun kv => kv.2.refCount = 0)
      (fun t b ht =>
        AMInv_foldl releaseMaterial b.2.materialDeps
          (fun t' h' ht' => AMInv_releaseMaterial t' h' ht')
          (b.2.meshDeps.foldl releaseMesh t)
          (AMInv_foldl releaseMesh b.2.meshDeps
            (fun t' h' ht' => AMInv_releaseMesh t' h' ht') t ht))
      s hs
  exact ⟨hs'.1, hs'.2.1, hs'.2.2.1, RegOK_filter _ hs'.2.2.2⟩

theorem AMInv_sweepMaterials (s : AMState) (hs : AMInv s) :
    AMInv (sweepMaterials s) := by
  have hs' : AMInv ((s.materials.filter fun kv => kv.2.refCount = 0).foldl
      (fun acc kv => kv.2.textureDeps.foldl releaseTexture acc) s) :=
    AMInv_foldl
      (fun acc kv => kv.2.textureDeps.foldl releaseTexture acc)
      (s.materials.filter fun kv => kv.2.refCount = 0)
      (fun t b ht => AMInv_foldl releaseTexture b.2.textureDeps
        (fun t' h' ht' => AMInv_releaseTexture t' h' ht') t ht)
      s hs
  exact ⟨hs'.1, hs'.2.1, RegOK_filter _ hs'.2.2.1, hs'.2.2.2⟩

theorem AMInv_sweepMeshes (s : AMState) (hs : AMInv s) :
    AMInv (sweepMeshes s) := by
  have hs' : AMInv ((s.meshes.filter fun kv => kv.2.refCount = 0).foldl
      (fun acc kv =>
        { acc with meshPathCache := eraseStr acc.meshPathCache kv.2.path })
      s) :=
    AMInv_foldl
      (fun acc kv =>
        { acc with meshPathCache := eraseStr acc.meshPathCache kv.2.path })
      (s.meshes.filter fun kv => kv.2.refCount = 0)
      (fun t b ht => ht) s hs
  exact ⟨RegOK_filter _ hs'.1, hs'.2⟩

theorem AMInv_sweepTextures (s : AMState) (hs : AMInv s) :
    AMInv (sweepTextures s) := by
  exact ⟨hs.1, RegOK_filter _ hs.2.1, hs.2.2⟩

theorem AMInv_garbageCollect (s : AMState) (hs : AMInv s) :
    AMInv (garbageCollect s) := by
  exact AMInv_sweepTextures _ (AMInv_sweepMeshes _
    (AMInv_sweepMaterials _ (AMInv_sweepModels s hs)))

theorem AMInv_init : AMInv initAM := by
  refine ⟨?_, ?_, ?_, ?_⟩ <;>
    exact ⟨fun kv hkv => absurd hkv (List.not_mem_nil kv), List.nodup_nil⟩

theorem AMInv_step {s s' : AMState} (hst : Step s s') (hs : AMInv s) :
    AMInv s' := by
  cases hst with
  | callAddRefMesh h => exact AMInv_addRefMesh s h hs
  | callAddRefTexture h => exact AMInv_addRefTexture s h hs
  | callAddRefMaterial h => exact AMInv_addRefMaterial s h hs
  | callAddRefModel h => exact AMInv_addRefModel s h hs
  | callReleaseMesh h => exact AMInv_releaseMesh s h hs
  | callReleaseTexture h => exact AMInv_releaseTexture s h hs
  | callReleaseMaterial h => exact AMInv_releaseMaterial s h hs
  | callReleaseModel h => exact AMInv_releaseModel s h hs
  | callLoadMesh path parsed poolOk uploadOk =>
    exact AMInv_loadMesh s path parsed poolOk uploadOk hs
  | callLoadModel path parsed g => exact AMInv_loadModel s path parsed g hs
  | callGarbageCollect => exact AMInv_garbageCollect s hs

theorem AMInv_reachable {s : AMState} (hs : Reachable s) : AMInv s := by
  induction hs with
  | init => exact AMInv_init
  | step hr hst ih => exact AMInv_step hst ih

theorem lookupReg_mem {reg : Registry α} {id : Nat} {e : RegEntry α}
    (h : lookupReg reg id = some e) : (id, e) ∈ reg := by
  induction reg with
  | nil => exact absurd h (by simp [lookupReg])
  | cons kv rest ih =>
    obtain ⟨k, e'⟩ := kv
    by_cases hk : k = id
    · simp only [lookupReg, if_pos hk] at h
      subst hk
      cases h
      exact List.mem_cons_self _ _
    · simp only [lookupReg, if_neg hk] at h
      exact List.mem_cons_of_mem _ (ih h)

theorem regGet_none_iff {reg : Registry α} {n : Nat} {h : Handle}
    (hok : RegOK reg n) (hg : h.generation = 1) :
    regGet reg h = none ↔ lookupReg reg h.id = none := by
  unfold regGet
  cases hl : lookupReg reg h.id with
  | none => simp
  | some e =>
    dsimp only
    have hgen : e.generation = 1 := (hok.1 _ (lookupReg_mem hl)).1
    rw [hgen, hg]
    simp

/-- C7: in every reachable manager state every registry entry carries
generation stamp 1 with identifiers below the registry's counter and
pairwise distinct; every further public call grows the counters
monotonically and only ever adds identifiers at or above the old counter
(so identifiers are never reused); consequently, for any handle the
manager previously returned (all such handles carry generation 1),
`get` is absent exactly when the identifier is no longer present — a
generation mismatch never occurs for such handles. -/
theorem reachable_registry_invariant (s : AMState) (hs : Reachable s) :
    AMInv s ∧
    (∀ s', Step s s' → Evolves s s') ∧
    (∀ h : Handle, h.generation = 1 →
      ((getMesh s h = none ↔ lookupReg s.meshes h.id = none) ∧
       (getTexture s h = none ↔ lookupReg s.textures h.id = none) ∧
       (getMaterial s h = none ↔ lookupReg s.materials h.id = none) ∧
       (getModel s h = none ↔ lookupReg s.models h.id = none))) := by
  have hinv := AMInv_reachable hs
  refine ⟨hinv, fun s' hst => Evolves_step hst, fun h hg => ?_⟩
  exact ⟨regGet_none_iff hinv.1 hg, regGet_none_iff hinv.2.1 hg,
    regGet_none_iff hinv.2.2.1 hg, regGet_none_iff hinv.2.2.2 hg⟩

theorem reachable_registry_invariant_witness :
    getModel (addRefMesh initAM ⟨1, 1⟩) ⟨1, 1⟩ = none ↔
      lookupReg (addRefMesh initAM ⟨1, 1⟩).models 1 = none :=
  ((reachable_registry_invariant (addRefMesh initAM ⟨1, 1⟩)
      (Reachable.step Reachable.init (Step.callAddRefMesh initAM ⟨1, 1⟩))).2.2
    ⟨1, 1⟩ rfl).2.2.2

end Stratosphere
